import Mathlib

/-!
Verification development for the shapefile-utils repository (ESRI shapefile
decoder).  The Rust sources are shallowly embedded: byte streams are lists of
naturals (each conceptually a `u8`), `f64` fields are carried as their raw
64-bit little-endian bit patterns (the decoder never computes on them, it only
moves them), `i32` values are `Int` obtained by two's-complement
interpretation, and `usize`/`u64` arithmetic is `Nat` arithmetic reduced
modulo 2^64 exactly where the Rust program wraps.  Fallible Rust functions
returning `Result<_, std::io::Error>` become `Except ParseErr _`; the distinct
outcome of a Rust panic (`Option::unwrap` on `None`) is kept apart from an
`Err` return by a dedicated `ParseErr.panicked` constructor.
-/

/-- A byte stream: the not-yet-consumed bytes of a `Read` stream, front first. -/
abbrev Stream8 : Type := List Nat

/-- Outcomes of a failed decode.  Every constructor except `panicked` models a
Rust `Err(std::io::Error)` return; `panicked` models a Rust panic (process
abort), which is not an error return.  `fuelExhausted` is an artifact of the
fuel-based loop embedding and is unreachable for the fuel supplied (see the
comment at `parseRecordsLoop`). -/
inductive ParseErr where
  /-- byteorder fails to fill its buffer: the stream ended early. -/
  | eof : ParseErr
  /-- SHP header magic number mismatch. -/
  | magicMismatch : ParseErr
  /-- SHP header version mismatch. -/
  | versionMismatch : ParseErr
  /-- parse_point_type called with a non-point shape type. -/
  | notPointType : ParseErr
  /-- a Rust panic: `Option::unwrap` called on `None`. -/
  | panicked : ParseErr
  /-- loop fuel ran out (unreachable, see `parseRecordsLoop`). -/
  | fuelExhausted : ParseErr
  deriving DecidableEq, Repr

/-- Assemble a little-endian byte list into a natural number. -/
def leNat : List Nat → Nat
  | [] => 0
  | b :: bs => b + 256 * leNat bs

/-- Two's-complement interpretation of a 32-bit word as an `i32`. -/
def i32ofNat (u : Nat) : Int :=
  if u % 4294967296 < 2147483648 then ((u % 4294967296 : Nat) : Int)
  else ((u % 4294967296 : Nat) : Int) - 4294967296

/-- Rust `i32 as u64` / `i32 as usize` (64-bit target): sign extension. -/
def i32AsU64 (v : Int) : Nat := (v % 18446744073709551616).toNat

/-- Wrapping `u64`/`usize` addition. -/
def uAdd (a b : Nat) : Nat := (a + b) % 18446744073709551616

/-- Wrapping `u64`/`usize` multiplication. -/
def uMul (a b : Nat) : Nat := (a * b) % 18446744073709551616

/-- Wrapping `u64` subtraction (for `a b < 2^64`). -/
def uSub (a b : Nat) : Nat := (a + 18446744073709551616 - b) % 18446744073709551616

/-- `read_i32::<LittleEndian>`: consume 4 bytes, least significant first. -/
def readI32LE : Stream8 → Except ParseErr (Int × Stream8)
  | b0 :: b1 :: b2 :: b3 :: s => .ok (i32ofNat (leNat [b0, b1, b2, b3]), s)
  | _ => .error .eof

/-- `read_i32::<BigEndian>`: consume 4 bytes, most significant first. -/
def readI32BE : Stream8 → Except ParseErr (Int × Stream8)
  | b0 :: b1 :: b2 :: b3 :: s => .ok (i32ofNat (leNat [b3, b2, b1, b0]), s)
  | _ => .error .eof

/-- `read_f64::<LittleEndian>`: consume 8 bytes; the value is kept as its raw
64-bit pattern (the decoder never computes on `f64`s). -/
def readF64 : Stream8 → Except ParseErr (Nat × Stream8)
  | b0 :: b1 :: b2 :: b3 :: b4 :: b5 :: b6 :: b7 :: s =>
      .ok (leNat [b0, b1, b2, b3, b4, b5, b6, b7], s)
  | _ => .error .eof

/-- Little-endian encoding of a 64-bit pattern into 8 bytes. -/
def f64le (v : Nat) : List Nat :=
  [v % 256, v / 256 % 256, v / 65536 % 256, v / 16777216 % 256,
   v / 4294967296 % 256, v / 1099511627776 % 256,
   v / 281474976710656 % 256, v / 72057594037927936 % 256]

/-! ## Geometry data model (src/shape.rs) -/

/-- A bounding box limited to X and Y axes (all `f64` bit patterns). -/
structure BoundingBox where
  x_min : Nat
  y_min : Nat
  x_max : Nat
  y_max : Nat
  deriving DecidableEq, Repr

/-- A point with latitude and longitude on an XY plane. -/
structure Point where
  x : Nat
  y : Nat
  deriving DecidableEq, Repr

/-- `Range<f64>`: a generic minimum/maximum pair of `f64` bit patterns. -/
structure Range64 where
  min : Nat
  max : Nat
  deriving DecidableEq, Repr

/-- A point with latitude, longitude, and a measure. -/
structure PointM where
  x : Nat
  y : Nat
  m : Nat
  deriving DecidableEq, Repr

/-- A point with latitude, longitude, altitude and an optional measure. -/
structure PointZ where
  x : Nat
  y : Nat
  z : Nat
  m : Nat
  deriving DecidableEq, Repr

/-- The type of a single patch (see MultiPatch shape type). -/
inductive PatchType where
  | TriangleStrip : PatchType
  | TriangleFan : PatchType
  | OuterRing : PatchType
  | InnerRing : PatchType
  | FirstRing : PatchType
  | Ring : PatchType
  deriving DecidableEq, Repr

/-- A shape record defining a geometric feature in the SHP file
(the `Shape` enum of src/shape.rs; the src/shpfile.rs copy is identical up to
field naming). -/
inductive Shape where
  | NullShape : Shape
  | Point (point : Point) : Shape
  | PolyLine (bounding_box : BoundingBox) (parts : List Int) (points : List Point) : Shape
  | Polygon (bounding_box : BoundingBox) (parts : List Int) (points : List Point) : Shape
  | MultiPoint (bounding_box : BoundingBox) (points : List Point) : Shape
  | PointZ (point : PointZ) : Shape
  | PolyLineZ (bounding_box : BoundingBox) (parts : List Int) (points : List Point)
      (z_range : Range64) (z : List Nat) (m_range : Range64) (m : List Nat) : Shape
  | PolygonZ (bounding_box : BoundingBox) (parts : List Int) (points : List Point)
      (z_range : Range64) (z : List Nat) (m_range : Range64) (m : List Nat) : Shape
  | MultiPointZ (bounding_box : BoundingBox) (points : List Point)
      (z_range : Range64) (z : List Nat) (m_range : Range64) (m : List Nat) : Shape
  | PointM (point : PointM) : Shape
  | PolyLineM (bounding_box : BoundingBox) (parts : List Int) (points : List Point)
      (m_range : Range64) (m : List Nat) : Shape
  | PolygonM (bounding_box : BoundingBox) (parts : List Int) (points : List Point)
      (m_range : Range64) (m : List Nat) : Shape
  | MultiPointM (bounding_box : BoundingBox) (points : List Point)
      (m_range : Range64) (m : List Nat) : Shape
  | MultiPatch (bounding_box : BoundingBox) (parts : List Int)
      (part_types : List PatchType) (points : List Point)
      (z_range : Range64) (z : List Nat) (m_range : Range64) (m : List Nat) : Shape
  deriving DecidableEq, Repr

/-- An internal struct for interchanging shape data (`ShapeBaseData`). -/
structure ShapeBaseData where
  bounding_box : BoundingBox
  num_parts : Int
  num_points : Int
  parts : List Int
  part_types : List PatchType
  points : List Point
  z_range : Range64
  z : List Nat
  m_range : Range64
  m : List Nat
  deriving DecidableEq, Repr

/-- `ShapeBaseData::new()`: all fields zero/empty. -/
def ShapeBaseData.new : ShapeBaseData where
  bounding_box := ⟨0, 0, 0, 0⟩
  num_parts := 0
  num_points := 0
  parts := []
  part_types := []
  points := []
  z_range := ⟨0, 0⟩
  z := []
  m_range := ⟨0, 0⟩
  m := []

/-- `BoundingBox::parse`: four little-endian `f64`s. -/
def BoundingBox.parse (s : Stream8) : Except ParseErr (BoundingBox × Stream8) :=
  match readF64 s with
  | .error e => .error e
  | .ok (x_min, s) =>
    match readF64 s with
    | .error e => .error e
    | .ok (y_min, s) =>
      match readF64 s with
      | .error e => .error e
      | .ok (x_max, s) =>
        match readF64 s with
        | .error e => .error e
        | .ok (y_max, s) => .ok (⟨x_min, y_min, x_max, y_max⟩, s)

/-- `Point::parse`: two little-endian `f64`s. -/
def Point.parse (s : Stream8) : Except ParseErr (Point × Stream8) :=
  match readF64 s with
  | .error e => .error e
  | .ok (x, s) =>
    match readF64 s with
    | .error e => .error e
    | .ok (y, s) => .ok (⟨x, y⟩, s)

/-- Alias for the `Point` structure, usable inside `namespace Shape` where the
bare name would resolve to the `Shape.Point` constructor. -/
abbrev GeoPoint : Type := Point

namespace Shape

/-- Shape type constants (shared by src/shape.rs and src/shpfile.rs). -/
def STY_NULL_SHAPE : Int := 0

def STY_POINT : Int := 1

def STY_POLY_LINE : Int := 3

def STY_POLYGON : Int := 5

def STY_MULTI_POINT : Int := 8

def STY_POINT_Z : Int := 11

def STY_POLY_LINE_Z : Int := 13

def STY_POLYGON_Z : Int := 15

def STY_MULTI_POINT_Z : Int := 18

def STY_POINT_M : Int := 21

def STY_POLY_LINE_M : Int := 23

def STY_POLYGON_M : Int := 25

def STY_MULTI_POINT_M : Int := 28

def STY_MULTI_PATCH : Int := 31

/-- Patch type constants. -/
def PTY_TRIANGLE_STRIP : Int := 0

def PTY_TRIANGLE_FAN : Int := 1

def PTY_OUTER_RING : Int := 2

def PTY_INNER_RING : Int := 3

def PTY_FIRST_RING : Int := 4

def PTY_RING : Int := 5

/-- `Shape::parse_array`: read `n` elements with `read_function`, in order. -/
def parse_array {V : Type} (read_function : Stream8 → Except ParseErr (V × Stream8)) :
    Nat → Stream8 → Except ParseErr (List V × Stream8)
  | 0, s => .ok ([], s)
  | n + 1, s =>
    match read_function s with
    | .error e => .error e
    | .ok (v, s) =>
      match parse_array read_function n s with
      | .error e => .error e
      | .ok (vs, s) => .ok (v :: vs, s)

/-- `Shape::parse_i32_array`. -/
def parse_i32_array (s : Stream8) (n : Nat) : Except ParseErr (List Int × Stream8) :=
  parse_array readI32LE n s

/-- `Shape::parse_point_array`. -/
def parse_point_array (s : Stream8) (n : Nat) : Except ParseErr (List GeoPoint × Stream8) :=
  parse_array Point.parse n s

/-- `Shape::parse_f64_array`. -/
def parse_f64_array (s : Stream8) (n : Nat) : Except ParseErr (List Nat × Stream8) :=
  parse_array readF64 n s

/-- `Shape::parse_point_type`: the three tag-discriminated point layouts.
src/shape.rs reads the fields through `parse_f64_array` and indexes the
result, src/shpfile.rs reads them one by one; both consume the same bytes and
build the same value, which is what is written here.  The returned count does
not include the 4-byte type tag. -/
def parse_point_type (s : Stream8) (shape_type : Int) :
    Except ParseErr (Shape × Nat × Stream8) :=
  if shape_type = STY_POINT then
    match readF64 s with
    | .error e => .error e
    | .ok (x, s) =>
      match readF64 s with
      | .error e => .error e
      | .ok (y, s) => .ok (.Point ⟨x, y⟩, 16, s)
  else if shape_type = STY_POINT_M then
    match readF64 s with
    | .error e => .error e
    | .ok (x, s) =>
      match readF64 s with
      | .error e => .error e
      | .ok (y, s) =>
        match readF64 s with
        | .error e => .error e
        | .ok (m, s) => .ok (.PointM ⟨x, y, m⟩, 24, s)
  else if shape_type = STY_POINT_Z then
    match readF64 s with
    | .error e => .error e
    | .ok (x, s) =>
      match readF64 s with
      | .error e => .error e
      | .ok (y, s) =>
        match readF64 s with
        | .error e => .error e
        | .ok (z, s) =>
          match readF64 s with
          | .error e => .error e
          | .ok (m, s) => .ok (.PointZ ⟨x, y, z, m⟩, 32, s)
  else .error .notPointType

/-- `Shape::get_patch_type_from_id`. -/
def get_patch_type_from_id (id : Int) : Option PatchType :=
  if id = PTY_TRIANGLE_STRIP then some .TriangleStrip
  else if id = PTY_TRIANGLE_FAN then some .TriangleFan
  else if id = PTY_INNER_RING then some .InnerRing
  else if id = PTY_OUTER_RING then some .OuterRing
  else if id = PTY_FIRST_RING then some .FirstRing
  else if id = PTY_RING then some .Ring
  else none

/-- The `.map(|x| get_patch_type_from_id(x).unwrap()).collect()` step of the
MultiPatch branch: `unwrap` on `None` is a Rust panic, modelled by the
distinguished `ParseErr.panicked` outcome (it is not an `Err` return). -/
def unwrapPatchTypes : List Int → Except ParseErr (List PatchType)
  | [] => .ok []
  | x :: xs =>
    match get_patch_type_from_id x with
    | none => .error .panicked
    | some p =>
      match unwrapPatchTypes xs with
      | .error e => .error e
      | .ok ps => .ok (p :: ps)

/-- `Shape::parse_f64_range_and_array`: a min/max pair then `n` values. -/
def parse_f64_range_and_array (s : Stream8) (n : Nat) :
    Except ParseErr ((Range64 × List Nat) × Stream8) :=
  match readF64 s with
  | .error e => .error e
  | .ok (min, s) =>
    match readF64 s with
    | .error e => .error e
    | .ok (max, s) =>
      match parse_f64_array s n with
      | .error e => .error e
      | .ok (arr, s) => .ok ((⟨min, max⟩, arr), s)

/-- `Shape::shape_from_base_data`. -/
def shape_from_base_data (shape_type : Int) (base : ShapeBaseData) : Shape :=
  if shape_type = STY_POLY_LINE then
    .PolyLine base.bounding_box base.parts base.points
  else if shape_type = STY_POLY_LINE_M then
    .PolyLineM base.bounding_box base.parts base.points base.m_range base.m
  else if shape_type = STY_POLY_LINE_Z then
    .PolyLineZ base.bounding_box base.parts base.points base.z_range base.z
      base.m_range base.m
  else if shape_type = STY_POLYGON then
    .Polygon base.bounding_box base.parts base.points
  else if shape_type = STY_POLYGON_M then
    .PolygonM base.bounding_box base.parts base.points base.m_range base.m
  else if shape_type = STY_POLYGON_Z then
    .PolygonZ base.bounding_box base.parts base.points base.z_range base.z
      base.m_range base.m
  else if shape_type = STY_MULTI_POINT then
    .MultiPoint base.bounding_box base.points
  else if shape_type = STY_MULTI_POINT_M then
    .MultiPointM base.bounding_box base.points base.m_range base.m
  else if shape_type = STY_MULTI_POINT_Z then
    .MultiPointZ base.bounding_box base.points base.z_range base.z
      base.m_range base.m
  else if shape_type = STY_MULTI_PATCH then
    .MultiPatch base.bounding_box base.parts base.part_types base.points
      base.z_range base.z base.m_range base.m
  else if shape_type = STY_NULL_SHAPE then .NullShape
  else .NullShape

/-- The second match statement of `Shape::parse` (shared verbatim by both
copies): bounding box, counts, parts, patch types and points, with the running
`length` updated exactly as in the source. -/
def parseBase (shape_type : Int) (s : Stream8) (base : ShapeBaseData) (length : Nat) :
    Except ParseErr (ShapeBaseData × Nat × Stream8) :=
  if shape_type = STY_POLY_LINE ∨ shape_type = STY_POLYGON ∨
     shape_type = STY_POLY_LINE_M ∨ shape_type = STY_POLYGON_M ∨
     shape_type = STY_POLY_LINE_Z ∨ shape_type = STY_POLYGON_Z ∨
     shape_type = STY_MULTI_PATCH then
    let length := uAdd length 40
    match BoundingBox.parse s with
    | .error e => .error e
    | .ok (bb, s) =>
      match readI32LE s with
      | .error e => .error e
      | .ok (num_parts, s) =>
        match readI32LE s with
        | .error e => .error e
        | .ok (num_points, s) =>
          let length := uAdd length (uMul 4 (i32AsU64 num_parts))
          match parse_i32_array s (i32AsU64 num_parts) with
          | .error e => .error e
          | .ok (parts, s) =>
            match
              (if shape_type = STY_MULTI_PATCH then
                match parse_i32_array s (i32AsU64 num_parts) with
                | .error e => .error e
                | .ok (part_types_id, s) =>
                  let length := uAdd length (uMul 4 (i32AsU64 num_parts))
                  match unwrapPatchTypes part_types_id with
                  | .error e => .error e
                  | .ok part_types => .ok (part_types, length, s)
              else .ok (([] : List PatchType), length, s) :
                Except ParseErr (List PatchType × Nat × Stream8)) with
            | .error e => .error e
            | .ok (part_types, length, s) =>
              let length := uAdd length (uMul 16 (i32AsU64 num_points))
              match parse_point_array s (i32AsU64 num_points) with
              | .error e => .error e
              | .ok (points, s) =>
                .ok ({ base with
                        bounding_box := bb, num_parts := num_parts,
                        num_points := num_points, parts := parts,
                        part_types := part_types, points := points },
                     length, s)
  else if shape_type = STY_MULTI_POINT ∨ shape_type = STY_MULTI_POINT_M ∨
          shape_type = STY_MULTI_POINT_Z then
    let length := uAdd length 36
    match BoundingBox.parse s with
    | .error e => .error e
    | .ok (bb, s) =>
      match readI32LE s with
      | .error e => .error e
      | .ok (num_points, s) =>
        let length := uAdd length (uMul 16 (i32AsU64 num_points))
        match parse_point_array s (i32AsU64 num_points) with
        | .error e => .error e
        | .ok (points, s) =>
          .ok ({ base with
                  bounding_box := bb, num_points := num_points, points := points },
               length, s)
  else .ok (base, length, s)

/-- The third match statement of `Shape::parse` (shared verbatim by both
copies): the optional Z and M blocks. -/
def parseZM (shape_type : Int) (base : ShapeBaseData) (length : Nat) (s : Stream8) :
    Except ParseErr (ShapeBaseData × Nat × Stream8) :=
  if shape_type = STY_POLY_LINE_Z ∨ shape_type = STY_POLYGON_Z ∨
     shape_type = STY_MULTI_POINT_Z ∨ shape_type = STY_MULTI_PATCH then
    match parse_f64_range_and_array s (i32AsU64 base.num_points) with
    | .error e => .error e
    | .ok ((z_range, z), s) =>
      match parse_f64_range_and_array s (i32AsU64 base.num_points) with
      | .error e => .error e
      | .ok ((m_range, m), s) =>
        .ok ({ base with z_range := z_range, z := z, m_range := m_range, m := m },
             uAdd length (uAdd 32 (uMul 16 (i32AsU64 base.num_points))), s)
  else if shape_type = STY_POLY_LINE_M ∨ shape_type = STY_POLYGON_M ∨
          shape_type = STY_MULTI_POINT_M then
    match parse_f64_range_and_array s (i32AsU64 base.num_points) with
    | .error e => .error e
    | .ok ((m_range, m), s) =>
      .ok ({ base with m_range := m_range, m := m },
           uAdd length (uAdd 16 (uMul 8 (i32AsU64 base.num_points))), s)
  else .ok (base, length, s)

/-- `Shape::parse` of src/shape.rs (the `pub mod shape` codec): for point
shape types the 4-byte tag is added to `parse_point_type`'s count
(`Ok((sh, sz + length))` with `length = 4`). -/
def parse (s : Stream8) : Except ParseErr (Shape × Nat × Stream8) :=
  match readI32LE s with
  | .error e => .error e
  | .ok (shape_type, s) =>
    if shape_type = STY_POINT ∨ shape_type = STY_POINT_M ∨ shape_type = STY_POINT_Z then
      match parse_point_type s shape_type with
      | .error e => .error e
      | .ok (sh, sz, s) => .ok (sh, uAdd sz 4, s)
    else
      match parseBase shape_type s ShapeBaseData.new 4 with
      | .error e => .error e
      | .ok (base, length, s) =>
        match parseZM shape_type base length s with
        | .error e => .error e
        | .ok (base, length, s) => .ok (shape_from_base_data shape_type base, length, s)

/-- `Shape::parse` of src/shpfile.rs (identical copy in
src/filetypes/shpfile.rs): for point shape types `parse_point_type`'s result
is returned unchanged, so the 4-byte tag is not counted. -/
def parseShpfile (s : Stream8) : Except ParseErr (Shape × Nat × Stream8) :=
  match readI32LE s with
  | .error e => .error e
  | .ok (shape_type, s) =>
    if shape_type = STY_POINT ∨ shape_type = STY_POINT_M ∨ shape_type = STY_POINT_Z then
      parse_point_type s shape_type
    else
      match parseBase shape_type s ShapeBaseData.new 4 with
      | .error e => .error e
      | .ok (base, length, s) =>
        match parseZM shape_type base length s with
        | .error e => .error e
        | .ok (base, length, s) => .ok (shape_from_base_data shape_type base, length, s)

end Shape

/-! ## Records and files (src/shpfile.rs, src/filetypes/shpfile.rs,
src/filetypes/shxfile.rs) -/

/-- One geometric data record of a SHP file (`Record` in src/shpfile.rs and
src/filetypes/shpfile.rs). -/
structure ShpRecord where
  record_number : Int
  content_length : Int
  shape : Shape
  deriving DecidableEq, Repr

/-- `Record::parse` (identical in src/shpfile.rs and
src/filetypes/shpfile.rs): big-endian record number and content length, then
the module's own `Shape::parse` (the copy that does not count the tag for
point shapes); returns the record together with `8 + shape_length`. -/
def ShpRecord.parse (s : Stream8) : Except ParseErr (ShpRecord × Nat × Stream8) :=
  match readI32BE s with
  | .error e => .error e
  | .ok (record_number, s) =>
    match readI32BE s with
    | .error e => .error e
    | .ok (content_length, s) =>
      match Shape.parseShpfile s with
      | .error e => .error e
      | .ok (shape, shape_length, s) =>
        .ok (⟨record_number, content_length, shape⟩, uAdd 8 shape_length, s)

/-- A bounding box with X, Y, Z and M extents (file headers only). -/
structure BoundingBoxZ where
  x_min : Nat
  y_min : Nat
  x_max : Nat
  y_max : Nat
  z_min : Nat
  z_max : Nat
  m_min : Nat
  m_max : Nat
  deriving DecidableEq, Repr

/-- `BoundingBoxZ::parse`: eight little-endian `f64`s. -/
def BoundingBoxZ.parse (s : Stream8) : Except ParseErr (BoundingBoxZ × Stream8) :=
  match readF64 s with
  | .error e => .error e
  | .ok (x_min, s) =>
    match readF64 s with
    | .error e => .error e
    | .ok (y_min, s) =>
      match readF64 s with
      | .error e => .error e
      | .ok (x_max, s) =>
        match readF64 s with
        | .error e => .error e
        | .ok (y_max, s) =>
          match readF64 s with
          | .error e => .error e
          | .ok (z_min, s) =>
            match readF64 s with
            | .error e => .error e
            | .ok (z_max, s) =>
              match readF64 s with
              | .error e => .error e
              | .ok (m_min, s) =>
                match readF64 s with
                | .error e => .error e
                | .ok (m_max, s) =>
                  .ok (⟨x_min, y_min, x_max, y_max, z_min, z_max, m_min, m_max⟩, s)

/-- The shared 100-byte header of SHP and SHX files. -/
structure FileHeader where
  file_length : Int
  shape_type : Int
  bounding_box : BoundingBoxZ
  deriving DecidableEq, Repr

/-- `FileHeader::SHP_MAGIC_NUMBER`. -/
def FileHeader.SHP_MAGIC_NUMBER : Int := 9994

/-- `FileHeader::SHP_VERSION`. -/
def FileHeader.SHP_VERSION : Int := 1000

/-- `FileHeader::parse`: big-endian magic (checked), 20 skipped bytes,
big-endian file length, little-endian version (checked), little-endian shape
type, bounding volume.  The `seek(Current(20))` of the source returns the new
absolute position (at least 24 here), so its `n < 20` error branch can never
fire; the seek is modelled as dropping 20 bytes. -/
def FileHeader.parse (s : Stream8) : Except ParseErr (FileHeader × Stream8) :=
  match readI32BE s with
  | .error e => .error e
  | .ok (magic, s) =>
    if magic ≠ FileHeader.SHP_MAGIC_NUMBER then .error .magicMismatch
    else
      let s := s.drop 20
      match readI32BE s with
      | .error e => .error e
      | .ok (file_length, s) =>
        match readI32LE s with
        | .error e => .error e
        | .ok (version, s) =>
          if version ≠ FileHeader.SHP_VERSION then .error .versionMismatch
          else
            match readI32LE s with
            | .error e => .error e
            | .ok (shape_type, s) =>
              match BoundingBoxZ.parse s with
              | .error e => .error e
              | .ok (bounding_box, s) =>
                .ok (⟨file_length, shape_type, bounding_box⟩, s)

/-- A sequentially decoded SHP file (`ShpFile` of src/shpfile.rs): header plus
all records. -/
structure ShpFile where
  header : FileHeader
  records : List ShpRecord
  deriving DecidableEq, Repr

/-- The record loop of `ShpFile::parse_stream`: while `consumed` is below the
target, decode one record and accumulate its length.  The loop is embedded
with explicit fuel so that it stays structurally recursive; `parse_stream`
supplies `s.length + 1` fuel, which can never run out because every
successful `ShpRecord.parse` strictly shortens the stream (see
`ShpRecord.parse_length_lt`), so at most `s.length` iterations can succeed
before a decode error ends the loop. -/
def parseRecordsLoop : Nat → Nat → Nat → Stream8 → Except ParseErr (List ShpRecord)
  | 0, _, _, _ => .error .fuelExhausted
  | fuel + 1, target, consumed, s =>
    if consumed < target then
      match ShpRecord.parse s with
      | .error e => .error e
      | .ok (rec, length, s) =>
        match parseRecordsLoop fuel target (uAdd consumed length) s with
        | .error e => .error e
        | .ok rs => .ok (rec :: rs)
    else .ok []

/-- `ShpFile::parse_stream`: parse the header, then records until the byte
count declared by the header (`file_length` 16-bit words times 2) is reached,
starting from `consumed = 100`. -/
def ShpFile.parse_stream (s : Stream8) : Except ParseErr ShpFile :=
  match FileHeader.parse s with
  | .error e => .error e
  | .ok (header, s) =>
    match parseRecordsLoop (s.length + 1) (uMul (i32AsU64 header.file_length) 2) 100 s with
    | .error e => .error e
    | .ok records => .ok ⟨header, records⟩

/-- An index record (`Record` of src/filetypes/shxfile.rs): offset and length
of a SHP record, both in 16-bit words. -/
structure ShxRecord where
  offset : Int
  length : Int
  deriving DecidableEq, Repr

/-- `shxfile::Record::parse`: two big-endian `i32`s (8 bytes). -/
def ShxRecord.parse (s : Stream8) : Except ParseErr (ShxRecord × Stream8) :=
  match readI32BE s with
  | .error e => .error e
  | .ok (offset, s) =>
    match readI32BE s with
    | .error e => .error e
    | .ok (length, s) => .ok (⟨offset, length⟩, s)

/-- An SHX file: the parsed header and the full byte content of the file
(the `BufReader<File>` handle, with seeks modelled as indexing from the
start). -/
structure ShxFile where
  header : FileHeader
  data : List Nat
  deriving DecidableEq, Repr

/-- `ShxFile::num_records`: `(file_length as u64 * 2 - 100) / 8` in wrapping
`u64` arithmetic, exactly as compiled in release mode; no validation of the
header's declared length. -/
def ShxFile.num_records (shx : ShxFile) : Nat :=
  let file_size := uMul (i32AsU64 shx.header.file_length) 2
  let header_size := 100
  let record_size := 8
  uSub file_size header_size / record_size

/-- `ShxFile::record`: a 1-based ordinal lookup.  Out-of-range IDs are `none`;
otherwise seek to `100 + (id - 1) * 8` (wrapping `u64` arithmetic) and parse
one 8-byte entry.  A `File` seek to an absolute position always succeeds and
returns exactly that position, so the source's `p != record_pos` branch can
never fire; the seek is modelled as dropping `record_pos` bytes. -/
def ShxFile.record (shx : ShxFile) (id : Nat) : Option ShxRecord :=
  let header_size := 100
  let record_size := 8
  let record_count := shx.num_records
  if id > record_count ∨ id < 1 then none
  else
    let record_pos := uAdd header_size (uMul (id - 1) record_size)
    match ShxRecord.parse (shx.data.drop record_pos) with
    | .ok (r, _) => some r
    | .error _ => none

/-- The random-access SHP reader (`ShpFile` of src/filetypes/shpfile.rs):
the parsed header and the full byte content of the main file. -/
structure ShpFileRA where
  header : FileHeader
  data : List Nat
  deriving DecidableEq, Repr

/-- `ShpFile::record` (src/filetypes/shpfile.rs): look the ordinal up in the
index, convert the word offset to bytes by multiplying by 2 (`as u64`
sign-extension and wrapping multiply), seek there and decode one record;
every failure is `none`.  As in `ShxFile::record`, an absolute `File` seek
returns the requested position, so the short-seek branch cannot fire. -/
def ShpFileRA.record (shp : ShpFileRA) (shx : ShxFile) (id : Nat) : Option ShpRecord :=
  match ShxFile.record shx id with
  | none => none
  | some rec =>
    match ShpRecord.parse (shp.data.drop (uMul (i32AsU64 rec.offset) 2)) with
    | .ok (v, _, _) => some v
    | .error _ => none

/-! ## Specification-side definitions -/

/-- The 14 recognized shape-type codes (spec section 6). -/
def recognizedShapeTypes : List Int := [0, 1, 3, 5, 8, 11, 13, 15, 18, 21, 23, 25, 28, 31]

/-- The parts invariant claimed by the spec, written from its words: `parts`
is strictly ascending, its first element is 0, and each value is a valid
index into `points`. -/
def partsSpecInvariant (parts : List Int) (numPoints : Nat) : Prop :=
  parts.head? = some 0 ∧ List.Chain' (· < ·) parts ∧
    ∀ p ∈ parts, 0 ≤ p ∧ p.toNat < numPoints

instance (parts : List Int) (numPoints : Nat) :
    Decidable (partsSpecInvariant parts numPoints) := by
  unfold partsSpecInvariant; infer_instance

/-- Length coherence of a decoded shape: the patch-type list (MultiPatch) has
the same length as `parts`, and Z/M arrays, where present, have the same
length as `points`. -/
def lengthCoherent : Shape → Prop
  | .PolyLineZ _ _ points _ z _ m => z.length = points.length ∧ m.length = points.length
  | .PolygonZ _ _ points _ z _ m => z.length = points.length ∧ m.length = points.length
  | .MultiPointZ _ points _ z _ m => z.length = points.length ∧ m.length = points.length
  | .PolyLineM _ _ points _ m => m.length = points.length
  | .PolygonM _ _ points _ m => m.length = points.length
  | .MultiPointM _ points _ m => m.length = points.length
  | .MultiPatch _ parts part_types points _ z _ m =>
      part_types.length = parts.length ∧ z.length = points.length ∧
        m.length = points.length
  | _ => True

/-- The stream suffix at which the `k`-th (0-based) record of a sequential
decode starts: iterate `ShpRecord.parse` from the position right after the
header. -/
def recStream (s : Stream8) : Nat → Option Stream8
  | 0 => some s
  | k + 1 =>
    match ShpRecord.parse s with
    | .ok (_, _, s') => recStream s' k
    | .error _ => none

/-! ## Concrete byte buffers used by witnesses and counterexamples -/

/-- A 20-byte Point buffer: tag 1, then x = 0.25 and y = 0.5 as IEEE-754
bit patterns. -/
def c1PointBuf : Stream8 :=
  1 :: 0 :: 0 :: 0 :: (f64le 4598175219545276416 ++ f64le 4602678819172646912)

/-- A 112-byte main file: a valid 100-byte header declaring 56 words of file
length and shape type 0, followed by one record (number 1, content length 2,
NullShape). -/
def c2File : Stream8 :=
  [0, 0, 39, 10] ++ List.replicate 20 0 ++ [0, 0, 0, 56] ++ [232, 3, 0, 0] ++
    [0, 0, 0, 0] ++ List.replicate 64 0 ++ [0, 0, 0, 1] ++ [0, 0, 0, 2] ++ [0, 0, 0, 0]

/-- The header declared by `c2File`. -/
def c2Hdr : FileHeader := ⟨56, 0, ⟨0, 0, 0, 0, 0, 0, 0, 0⟩⟩

/-- The single record of `c2File`. -/
def c2Rec : ShpRecord := ⟨1, 2, .NullShape⟩

/-- An index file for `c2File`: header declaring 54 words (one 8-byte entry)
and one entry pointing at word offset 50 (byte 100) with length 2 words. -/
def c2Shx : ShxFile :=
  ⟨⟨54, 0, ⟨0, 0, 0, 0, 0, 0, 0, 0⟩⟩, List.replicate 100 0 ++ [0, 0, 0, 50, 0, 0, 0, 2]⟩

/-- A 52-byte MultiPatch buffer whose single patch-type code is 6, which is
not one of the six recognized codes: tag 31, zero bounding box, 1 part,
0 points, part start 0, patch-type code 6. -/
def c3Buf : Stream8 :=
  [31, 0, 0, 0] ++ List.replicate 32 0 ++ [1, 0, 0, 0] ++ [0, 0, 0, 0] ++
    [0, 0, 0, 0] ++ [6, 0, 0, 0]

/-- An index file whose table with one entry (at byte 100: offset 50 words,
length 2 words) is declared by a 54-word header. -/
def c5Shx : ShxFile :=
  ⟨⟨54, 0, ⟨0, 0, 0, 0, 0, 0, 0, 0⟩⟩, List.replicate 100 0 ++ [0, 0, 0, 50, 0, 0, 0, 2]⟩

/-- An index file declaring 51 words = 102 bytes: 2 bytes of entries, which
is not a multiple of the 8-byte entry stride. -/
def c7Shx : ShxFile := ⟨⟨51, 0, ⟨0, 0, 0, 0, 0, 0, 0, 0⟩⟩, []⟩

/-- A 64-byte PolyLine buffer whose single part-start index is 7: tag 3, zero
bounding box, 1 part, 1 point, part start 7, one zero point.  The decoder
accepts it although 7 is not 0 and not a valid index into the single-point
sequence. -/
def c9Buf : Stream8 :=
  [3, 0, 0, 0] ++ List.replicate 32 0 ++ [1, 0, 0, 0] ++ [1, 0, 0, 0] ++
    [7, 0, 0, 0] ++ List.replicate 16 0

/-- The 160-byte payload shared by the C4 PolyLineM/PolygonM scenario: a
bounding box, 2 parts with start indices 0 and 2, 4 points, an M range and
4 M values, every `f64` given by its 64-bit pattern. -/
def c4Payload (bb1 bb2 bb3 bb4 p1x p1y p2x p2y p3x p3y p4x p4y mr1 mr2 m1 m2 m3 m4 : Nat) :
    Stream8 :=
  f64le bb1 ++ (f64le bb2 ++ (f64le bb3 ++ (f64le bb4 ++
    (2 :: 0 :: 0 :: 0 :: (4 :: 0 :: 0 :: 0 :: (0 :: 0 :: 0 :: 0 :: (2 :: 0 :: 0 :: 0 ::
      (f64le p1x ++ (f64le p1y ++ (f64le p2x ++ (f64le p2y ++ (f64le p3x ++ (f64le p3y ++
        (f64le p4x ++ (f64le p4y ++ (f64le mr1 ++ (f64le mr2 ++ (f64le m1 ++ (f64le m2 ++
          (f64le m3 ++ f64le m4))))))))))))))))))))

/-- An 88-byte PolyLineM buffer: tag 23, zero bounding box, 1 part, 1 point,
part start 0, one zero point, zero M range, one zero M value. -/
def c9MBuf : Stream8 :=
  [23, 0, 0, 0] ++ List.replicate 32 0 ++ [1, 0, 0, 0] ++ [1, 0, 0, 0] ++
    [0, 0, 0, 0] ++ List.replicate 16 0 ++ List.replicate 16 0 ++ List.replicate 8 0

/-! ## Generic lemmas about the byte-level readers -/

theorem readF64_len {s : Stream8} {v : Nat} {s' : Stream8}
    (h : readF64 s = .ok (v, s')) : s'.length + 8 = s.length := by
  match s with
  | [] | [_] | [_, _] | [_, _, _] | [_, _, _, _] | [_, _, _, _, _]
  | [_, _, _, _, _, _] | [_, _, _, _, _, _, _] => simp [readF64] at h
  | _ :: _ :: _ :: _ :: _ :: _ :: _ :: _ :: t =>
    simp only [readF64, Except.ok.injEq, Prod.mk.injEq] at h
    simp [← h.2]

theorem readI32LE_len {s : Stream8} {v : Int} {s' : Stream8}
    (h : readI32LE s = .ok (v, s')) : s'.length + 4 = s.length := by
  match s with
  | [] | [_] | [_, _] | [_, _, _] => simp [readI32LE] at h
  | _ :: _ :: _ :: _ :: t =>
    simp only [readI32LE, Except.ok.injEq, Prod.mk.injEq] at h
    simp [← h.2]

theorem readI32BE_len {s : Stream8} {v : Int} {s' : Stream8}
    (h : readI32BE s = .ok (v, s')) : s'.length + 4 = s.length := by
  match s with
  | [] | [_] | [_, _] | [_, _, _] => simp [readI32BE] at h
  | _ :: _ :: _ :: _ :: t =>
    simp only [readI32BE, Except.ok.injEq, Prod.mk.injEq] at h
    simp [← h.2]

/-- Reading back a little-endian encoded 64-bit pattern. -/
theorem readF64_f64le (v : Nat) (r : Stream8) :
    readF64 (f64le v ++ r) = .ok (v % 18446744073709551616, r) := by
  simp only [f64le, List.cons_append, List.nil_append, readF64, leNat,
    Except.ok.injEq, Prod.mk.injEq]
  exact ⟨by omega, trivial⟩

theorem readF64_f64le_nil (v : Nat) :
    readF64 (f64le v) = .ok (v % 18446744073709551616, []) := by
  have h := readF64_f64le v []
  simpa using h

/-- `i32ofNat` on an in-range value. -/
theorem i32ofNat_small {u : Nat} (h : u < 2147483648) : i32ofNat u = (u : Int) := by
  unfold i32ofNat
  rw [Nat.mod_eq_of_lt (by omega)]
  simp [h]

theorem parse_array_length {V : Type} {f : Stream8 → Except ParseErr (V × Stream8)} :
    ∀ {n : Nat} {s : Stream8} {l : List V} {s' : Stream8},
      Shape.parse_array f n s = .ok (l, s') → l.length = n := by
  intro n
  induction n with
  | zero =>
    intro s l s' h
    simp only [Shape.parse_array, Except.ok.injEq, Prod.mk.injEq] at h
    simp [← h.1]
  | succ n ih =>
    intro s l s' h
    unfold Shape.parse_array at h
    cases h1 : f s with
    | error e => rw [h1] at h; exact absurd h (by simp)
    | ok p =>
      obtain ⟨v, s1⟩ := p
      rw [h1] at h
      dsimp only at h
      cases h2 : Shape.parse_array f n s1 with
      | error e => rw [h2] at h; exact absurd h (by simp)
      | ok q =>
        obtain ⟨vs, s2⟩ := q
        rw [h2] at h
        simp only [Except.ok.injEq, Prod.mk.injEq] at h
        have := ih h2
        simp [← h.1, this]

theorem parse_array_stream_len {V : Type} {f : Stream8 → Except ParseErr (V × Stream8)}
    (hf : ∀ {s : Stream8} {v : V} {s' : Stream8}, f s = .ok (v, s') → s'.length ≤ s.length) :
    ∀ {n : Nat} {s : Stream8} {l : List V} {s' : Stream8},
      Shape.parse_array f n s = .ok (l, s') → s'.length ≤ s.length := by
  intro n
  induction n with
  | zero =>
    intro s l s' h
    simp only [Shape.parse_array, Except.ok.injEq, Prod.mk.injEq] at h
    simp [← h.2]
  | succ n ih =>
    intro s l s' h
    unfold Shape.parse_array at h
    cases h1 : f s with
    | error e => rw [h1] at h; exact absurd h (by simp)
    | ok p =>
      obtain ⟨v, s1⟩ := p
      rw [h1] at h
      dsimp only at h
      cases h2 : Shape.parse_array f n s1 with
      | error e => rw [h2] at h; exact absurd h (by simp)
      | ok q =>
        obtain ⟨vs, s2⟩ := q
        rw [h2] at h
        simp only [Except.ok.injEq, Prod.mk.injEq] at h
        have l1 := hf h1
        have l2 := ih h2
        have hs : s2 = s' := h.2
        subst hs
        omega

theorem readF64_le {s : Stream8} {v : Nat} {s' : Stream8}
    (h : readF64 s = .ok (v, s')) : s'.length ≤ s.length := by
  have := readF64_len h; omega

theorem readI32LE_le {s : Stream8} {v : Int} {s' : Stream8}
    (h : readI32LE s = .ok (v, s')) : s'.length ≤ s.length := by
  have := readI32LE_len h; omega

theorem readI32BE_le {s : Stream8} {v : Int} {s' : Stream8}
    (h : readI32BE s = .ok (v, s')) : s'.length ≤ s.length := by
  have := readI32BE_len h; omega

theorem Point_parse_le {s : Stream8} {p : Point} {s' : Stream8}
    (h : Point.parse s = .ok (p, s')) : s'.length ≤ s.length := by
  unfold Point.parse at h
  cases h1 : readF64 s with
  | error e => rw [h1] at h; exact absurd h (by simp)
  | ok q =>
    obtain ⟨x, s1⟩ := q
    rw [h1] at h
    dsimp only at h
    cases h2 : readF64 s1 with
    | error e => rw [h2] at h; exact absurd h (by simp)
    | ok q2 =>
      obtain ⟨y, s2⟩ := q2
      rw [h2] at h
      simp only [Except.ok.injEq, Prod.mk.injEq] at h
      obtain ⟨-, rfl⟩ := h
      have := readF64_len h1
      have := readF64_len h2
      omega

theorem BoundingBox_parse_le {s : Stream8} {bb : BoundingBox} {s' : Stream8}
    (h : BoundingBox.parse s = .ok (bb, s')) : s'.length ≤ s.length := by
  unfold BoundingBox.parse at h
  cases h1 : readF64 s with
  | error e => rw [h1] at h; exact absurd h (by simp)
  | ok q1 =>
    obtain ⟨v1, s1⟩ := q1
    rw [h1] at h; dsimp only at h
    cases h2 : readF64 s1 with
    | error e => rw [h2] at h; exact absurd h (by simp)
    | ok q2 =>
      obtain ⟨v2, s2⟩ := q2
      rw [h2] at h; dsimp only at h
      cases h3 : readF64 s2 with
      | error e => rw [h3] at h; exact absurd h (by simp)
      | ok q3 =>
        obtain ⟨v3, s3⟩ := q3
        rw [h3] at h; dsimp only at h
        cases h4 : readF64 s3 with
        | error e => rw [h4] at h; exact absurd h (by simp)
        | ok q4 =>
          obtain ⟨v4, s4⟩ := q4
          rw [h4] at h
          simp only [Except.ok.injEq, Prod.mk.injEq] at h
          obtain ⟨-, rfl⟩ := h
          have := readF64_len h1
          have := readF64_len h2
          have := readF64_len h3
          have := readF64_len h4
          omega

theorem parse_i32_array_le {s : Stream8} {n : Nat} {l : List Int} {s' : Stream8}
    (h : Shape.parse_i32_array s n = .ok (l, s')) : s'.length ≤ s.length := by
  unfold Shape.parse_i32_array at h
  exact parse_array_stream_len (fun hx => readI32LE_le hx) h

theorem parse_point_array_le {s : Stream8} {n : Nat} {l : List Point} {s' : Stream8}
    (h : Shape.parse_point_array s n = .ok (l, s')) : s'.length ≤ s.length := by
  unfold Shape.parse_point_array at h
  exact parse_array_stream_len (fun hx => Point_parse_le hx) h

theorem parse_f64_array_le {s : Stream8} {n : Nat} {l : List Nat} {s' : Stream8}
    (h : Shape.parse_f64_array s n = .ok (l, s')) : s'.length ≤ s.length := by
  unfold Shape.parse_f64_array at h
  exact parse_array_stream_len (fun hx => readF64_le hx) h

theorem parse_f64_range_and_array_le {s : Stream8} {n : Nat}
    {ra : Range64 × List Nat} {s' : Stream8}
    (h : Shape.parse_f64_range_and_array s n = .ok (ra, s')) : s'.length ≤ s.length := by
  unfold Shape.parse_f64_range_and_array at h
  cases h1 : readF64 s with
  | error e => rw [h1] at h; exact absurd h (by simp)
  | ok q1 =>
    obtain ⟨v1, s1⟩ := q1
    rw [h1] at h; dsimp only at h
    cases h2 : readF64 s1 with
    | error e => rw [h2] at h; exact absurd h (by simp)
    | ok q2 =>
      obtain ⟨v2, s2⟩ := q2
      rw [h2] at h; dsimp only at h
      cases h3 : Shape.parse_f64_array s2 n with
      | error e => rw [h3] at h; exact absurd h (by simp)
      | ok q3 =>
        obtain ⟨arr, s3⟩ := q3
        rw [h3] at h
        simp only [Except.ok.injEq, Prod.mk.injEq] at h
        obtain ⟨-, rfl⟩ := h
        have := readF64_len h1
        have := readF64_len h2
        have := parse_f64_array_le h3
        omega

theorem parse_point_type_le {s : Stream8} {t : Int} {sh : Shape} {n : Nat} {s' : Stream8}
    (h : Shape.parse_point_type s t = .ok (sh, n, s')) : s'.length ≤ s.length := by
  unfold Shape.parse_point_type at h
  split_ifs at h
  case _ =>
    cases h1 : readF64 s with
    | error e => rw [h1] at h; exact absurd h (by simp)
    | ok q1 =>
      obtain ⟨x, s1⟩ := q1
      rw [h1] at h; dsimp only at h
      cases h2 : readF64 s1 with
      | error e => rw [h2] at h; exact absurd h (by simp)
      | ok q2 =>
        obtain ⟨y, s2⟩ := q2
        rw [h2] at h
        simp only [Except.ok.injEq, Prod.mk.injEq] at h
        obtain ⟨-, -, rfl⟩ := h
        have := readF64_len h1
        have := readF64_len h2
        omega
  case _ =>
    cases h1 : readF64 s with
    | error e => rw [h1] at h; exact absurd h (by simp)
    | ok q1 =>
      obtain ⟨x, s1⟩ := q1
      rw [h1] at h; dsimp only at h
      cases h2 : readF64 s1 with
      | error e => rw [h2] at h; exact absurd h (by simp)
      | ok q2 =>
        obtain ⟨y, s2⟩ := q2
        rw [h2] at h; dsimp only at h
        cases h3 : readF64 s2 with
        | error e => rw [h3] at h; exact absurd h (by simp)
        | ok q3 =>
          obtain ⟨m, s3⟩ := q3
          rw [h3] at h
          simp only [Except.ok.injEq, Prod.mk.injEq] at h
          obtain ⟨-, -, rfl⟩ := h
          have := readF64_len h1
          have := readF64_len h2
          have := readF64_len h3
          omega
  case _ =>
    cases h1 : readF64 s with
    | error e => rw [h1] at h; exact absurd h (by simp)
    | ok q1 =>
      obtain ⟨x, s1⟩ := q1
      rw [h1] at h; dsimp only at h
      cases h2 : readF64 s1 with
      | error e => rw [h2] at h; exact absurd h (by simp)
      | ok q2 =>
        obtain ⟨y, s2⟩ := q2
        rw [h2] at h; dsimp only at h
        cases h3 : readF64 s2 with
        | error e => rw [h3] at h; exact absurd h (by simp)
        | ok q3 =>
          obtain ⟨z, s3⟩ := q3
          rw [h3] at h; dsimp only at h
          cases h4 : readF64 s3 with
          | error e => rw [h4] at h; exact absurd h (by simp)
          | ok q4 =>
            obtain ⟨m, s4⟩ := q4
            rw [h4] at h
            simp only [Except.ok.injEq, Prod.mk.injEq] at h
            obtain ⟨-, -, rfl⟩ := h
            have := readF64_len h1
            have := readF64_len h2
            have := readF64_len h3
            have := readF64_len h4
            omega

theorem parseBase_le {t : Int} {s : Stream8} {base0 : ShapeBaseData} {len0 : Nat}
    {base : ShapeBaseData} {len : Nat} {s' : Stream8}
    (h : Shape.parseBase t s base0 len0 = .ok (base, len, s')) : s'.length ≤ s.length := by
  unfold Shape.parseBase at h
  by_cases hpoly : t = Shape.STY_POLY_LINE ∨ t = Shape.STY_POLYGON ∨
      t = Shape.STY_POLY_LINE_M ∨ t = Shape.STY_POLYGON_M ∨
      t = Shape.STY_POLY_LINE_Z ∨ t = Shape.STY_POLYGON_Z ∨ t = Shape.STY_MULTI_PATCH
  · rw [if_pos hpoly] at h
    dsimp only at h
    cases h1 : BoundingBox.parse s with
    | error e => rw [h1] at h; exact absurd h (by simp)
    | ok q1 =>
      obtain ⟨bb, s1⟩ := q1
      rw [h1] at h; dsimp only at h
      cases h2 : readI32LE s1 with
      | error e => rw [h2] at h; exact absurd h (by simp)
      | ok q2 =>
        obtain ⟨num_parts, s2⟩ := q2
        rw [h2] at h; dsimp only at h
        cases h3 : readI32LE s2 with
        | error e => rw [h3] at h; exact absurd h (by simp)
        | ok q3 =>
          obtain ⟨num_points, s3⟩ := q3
          rw [h3] at h; dsimp only at h
          cases h4 : Shape.parse_i32_array s3 (i32AsU64 num_parts) with
          | error e => rw [h4] at h; exact absurd h (by simp)
          | ok q4 =>
            obtain ⟨parts, s4⟩ := q4
            rw [h4] at h; dsimp only at h
            have hb := BoundingBox_parse_le h1
            have hr2 := readI32LE_len h2
            have hr3 := readI32LE_len h3
            have ha4 := parse_i32_array_le h4
            by_cases h31 : t = Shape.STY_MULTI_PATCH
            · rw [if_pos h31] at h
              cases h5 : Shape.parse_i32_array s4 (i32AsU64 num_parts) with
              | error e => rw [h5] at h; exact absurd h (by simp)
              | ok q5 =>
                obtain ⟨ids, s5⟩ := q5
                rw [h5] at h; dsimp only at h
                cases h6 : Shape.unwrapPatchTypes ids with
                | error e => rw [h6] at h; exact absurd h (by simp)
                | ok ptys =>
                  rw [h6] at h; dsimp only at h
                  cases h7 : Shape.parse_point_array s5 (i32AsU64 num_points) with
                  | error e => rw [h7] at h; exact absurd h (by simp)
                  | ok q7 =>
                    obtain ⟨pts, s6⟩ := q7
                    rw [h7] at h
                    simp only [Except.ok.injEq, Prod.mk.injEq] at h
                    obtain ⟨-, -, rfl⟩ := h
                    have ha5 := parse_i32_array_le h5
                    have ha7 := parse_point_array_le h7
                    omega
            · rw [if_neg h31] at h
              dsimp only at h
              cases h7 : Shape.parse_point_array s4 (i32AsU64 num_points) with
              | error e => rw [h7] at h; exact absurd h (by simp)
              | ok q7 =>
                obtain ⟨pts, s6⟩ := q7
                rw [h7] at h
                simp only [Except.ok.injEq, Prod.mk.injEq] at h
                obtain ⟨-, -, rfl⟩ := h
                have ha7 := parse_point_array_le h7
                omega
  · rw [if_neg hpoly] at h
    by_cases hmp : t = Shape.STY_MULTI_POINT ∨ t = Shape.STY_MULTI_POINT_M ∨
        t = Shape.STY_MULTI_POINT_Z
    · rw [if_pos hmp] at h
      dsimp only at h
      cases h1 : BoundingBox.parse s with
      | error e => rw [h1] at h; exact absurd h (by simp)
      | ok q1 =>
        obtain ⟨bb, s1⟩ := q1
        rw [h1] at h; dsimp only at h
        cases h2 : readI32LE s1 with
        | error e => rw [h2] at h; exact absurd h (by simp)
        | ok q2 =>
          obtain ⟨num_points, s2⟩ := q2
          rw [h2] at h; dsimp only at h
          cases h3 : Shape.parse_point_array s2 (i32AsU64 num_points) with
          | error e => rw [h3] at h; exact absurd h (by simp)
          | ok q3 =>
            obtain ⟨pts, s3⟩ := q3
            rw [h3] at h
            simp only [Except.ok.injEq, Prod.mk.injEq] at h
            obtain ⟨-, -, rfl⟩ := h
            have hb := BoundingBox_parse_le h1
            have hr2 := readI32LE_len h2
            have ha3 := parse_point_array_le h3
            omega
    · rw [if_neg hmp] at h
      simp only [Except.ok.injEq, Prod.mk.injEq] at h
      obtain ⟨-, -, rfl⟩ := h
      exact le_refl _

theorem parseZM_le {t : Int} {base0 : ShapeBaseData} {len0 : Nat} {s : Stream8}
    {base : ShapeBaseData} {len : Nat} {s' : Stream8}
    (h : Shape.parseZM t base0 len0 s = .ok (base, len, s')) : s'.length ≤ s.length := by
  unfold Shape.parseZM at h
  by_cases hz : t = Shape.STY_POLY_LINE_Z ∨ t = Shape.STY_POLYGON_Z ∨
      t = Shape.STY_MULTI_POINT_Z ∨ t = Shape.STY_MULTI_PATCH
  · rw [if_pos hz] at h
    cases h1 : Shape.parse_f64_range_and_array s (i32AsU64 base0.num_points) with
    | error e => rw [h1] at h; exact absurd h (by simp)
    | ok q1 =>
      obtain ⟨⟨z_range, z⟩, s1⟩ := q1
      rw [h1] at h; dsimp only at h
      cases h2 : Shape.parse_f64_range_and_array s1 (i32AsU64 base0.num_points) with
      | error e => rw [h2] at h; exact absurd h (by simp)
      | ok q2 =>
        obtain ⟨⟨m_range, m⟩, s2⟩ := q2
        rw [h2] at h
        simp only [Except.ok.injEq, Prod.mk.injEq] at h
        obtain ⟨-, -, rfl⟩ := h
        have l1 := parse_f64_range_and_array_le h1
        have l2 := parse_f64_range_and_array_le h2
        omega
  · rw [if_neg hz] at h
    by_cases hm : t = Shape.STY_POLY_LINE_M ∨ t = Shape.STY_POLYGON_M ∨
        t = Shape.STY_MULTI_POINT_M
    · rw [if_pos hm] at h
      cases h1 : Shape.parse_f64_range_and_array s (i32AsU64 base0.num_points) with
      | error e => rw [h1] at h; exact absurd h (by simp)
      | ok q1 =>
        obtain ⟨⟨m_range, m⟩, s1⟩ := q1
        rw [h1] at h
        simp only [Except.ok.injEq, Prod.mk.injEq] at h
        obtain ⟨-, -, rfl⟩ := h
        exact parse_f64_range_and_array_le h1
    · rw [if_neg hm] at h
      simp only [Except.ok.injEq, Prod.mk.injEq] at h
      obtain ⟨-, -, rfl⟩ := h
      exact le_refl _

theorem parseShpfile_le {s : Stream8} {sh : Shape} {n : Nat} {s' : Stream8}
    (h : Shape.parseShpfile s = .ok (sh, n, s')) : s'.length + 4 ≤ s.length := by
  unfold Shape.parseShpfile at h
  cases h0 : readI32LE s with
  | error e => rw [h0] at h; exact absurd h (by simp)
  | ok q0 =>
    obtain ⟨t, s1⟩ := q0
    rw [h0] at h; dsimp only at h
    have hr := readI32LE_len h0
    by_cases hp : t = Shape.STY_POINT ∨ t = Shape.STY_POINT_M ∨ t = Shape.STY_POINT_Z
    · rw [if_pos hp] at h
      have := parse_point_type_le h
      omega
    · rw [if_neg hp] at h
      cases h1 : Shape.parseBase t s1 ShapeBaseData.new 4 with
      | error e => rw [h1] at h; exact absurd h (by simp)
      | ok q1 =>
        obtain ⟨base1, len1, s2⟩ := q1
        rw [h1] at h; dsimp only at h
        cases h2 : Shape.parseZM t base1 len1 s2 with
        | error e => rw [h2] at h; exact absurd h (by simp)
        | ok q2 =>
          obtain ⟨base2, len2, s3⟩ := q2
          rw [h2] at h
          simp only [Except.ok.injEq, Prod.mk.injEq] at h
          obtain ⟨-, -, rfl⟩ := h
          have l1 := parseBase_le h1
          have l2 := parseZM_le h2
          omega

/-- Every successful `ShpRecord.parse` consumes at least 12 bytes; in
particular the remaining stream is strictly shorter, which is what makes the
`s.length + 1` fuel of `ShpFile.parse_stream` sufficient. -/
theorem ShpRecord.parse_length_lt {s : Stream8} {r : ShpRecord} {n : Nat} {s' : Stream8}
    (h : ShpRecord.parse s = .ok (r, n, s')) : s'.length + 12 ≤ s.length := by
  unfold ShpRecord.parse at h
  cases h1 : readI32BE s with
  | error e => rw [h1] at h; exact absurd h (by simp)
  | ok q1 =>
    obtain ⟨rn, s1⟩ := q1
    rw [h1] at h; dsimp only at h
    cases h2 : readI32BE s1 with
    | error e => rw [h2] at h; exact absurd h (by simp)
    | ok q2 =>
      obtain ⟨cl, s2⟩ := q2
      rw [h2] at h; dsimp only at h
      cases h3 : Shape.parseShpfile s2 with
      | error e => rw [h3] at h; exact absurd h (by simp)
      | ok q3 =>
        obtain ⟨sh, sl, s3⟩ := q3
        rw [h3] at h
        simp only [Except.ok.injEq, Prod.mk.injEq] at h
        obtain ⟨-, -, rfl⟩ := h
        have l1 := readI32BE_len h1
        have l2 := readI32BE_len h2
        have l3 := parseShpfile_le h3
        omega

theorem unwrapPatchTypes_length : ∀ {ids : List Int} {ps : List PatchType},
    Shape.unwrapPatchTypes ids = .ok ps → ps.length = ids.length := by
  intro ids
  induction ids with
  | nil =>
    intro ps h
    simp only [Shape.unwrapPatchTypes, Except.ok.injEq] at h
    simp [← h]
  | cons x xs ih =>
    intro ps h
    unfold Shape.unwrapPatchTypes at h
    cases h1 : Shape.get_patch_type_from_id x with
    | none => rw [h1] at h; exact absurd h (by simp)
    | some p =>
      rw [h1] at h; dsimp only at h
      cases h2 : Shape.unwrapPatchTypes xs with
      | error e => rw [h2] at h; exact absurd h (by simp)
      | ok ps2 =>
        rw [h2] at h
        simp only [Except.ok.injEq] at h
        have := ih h2
        simp [← h, this]

/-- What a successful `parseBase` starting from `ShapeBaseData::new` yields:
the parts, points and patch-type lists have exactly the lengths declared by
the freshly read counts (no further validation happens). -/
theorem parseBase_new_spec {t : Int} {s : Stream8}
    {base : ShapeBaseData} {len : Nat} {s' : Stream8}
    (h : Shape.parseBase t s ShapeBaseData.new 4 = .ok (base, len, s')) :
    base.parts.length = i32AsU64 base.num_parts ∧
    base.points.length = i32AsU64 base.num_points ∧
    (t = Shape.STY_MULTI_PATCH → base.part_types.length = base.parts.length) := by
  unfold Shape.parseBase at h
  by_cases hpoly : t = Shape.STY_POLY_LINE ∨ t = Shape.STY_POLYGON ∨
      t = Shape.STY_POLY_LINE_M ∨ t = Shape.STY_POLYGON_M ∨
      t = Shape.STY_POLY_LINE_Z ∨ t = Shape.STY_POLYGON_Z ∨ t = Shape.STY_MULTI_PATCH
  · rw [if_pos hpoly] at h
    dsimp only at h
    cases h1 : BoundingBox.parse s with
    | error e => rw [h1] at h; exact absurd h (by simp)
    | ok q1 =>
      obtain ⟨bb, s1⟩ := q1
      rw [h1] at h; dsimp only at h
      cases h2 : readI32LE s1 with
      | error e => rw [h2] at h; exact absurd h (by simp)
      | ok q2 =>
        obtain ⟨num_parts, s2⟩ := q2
        rw [h2] at h; dsimp only at h
        cases h3 : readI32LE s2 with
        | error e => rw [h3] at h; exact absurd h (by simp)
        | ok q3 =>
          obtain ⟨num_points, s3⟩ := q3
          rw [h3] at h; dsimp only at h
          cases h4 : Shape.parse_i32_array s3 (i32AsU64 num_parts) with
          | error e => rw [h4] at h; exact absurd h (by simp)
          | ok q4 =>
            obtain ⟨parts, s4⟩ := q4
            rw [h4] at h; dsimp only at h
            have hlparts : parts.length = i32AsU64 num_parts :=
              parse_array_length h4
            by_cases h31 : t = Shape.STY_MULTI_PATCH
            · rw [if_pos h31] at h
              cases h5 : Shape.parse_i32_array s4 (i32AsU64 num_parts) with
              | error e => rw [h5] at h; exact absurd h (by simp)
              | ok q5 =>
                obtain ⟨ids, s5⟩ := q5
                rw [h5] at h; dsimp only at h
                cases h6 : Shape.unwrapPatchTypes ids with
                | error e => rw [h6] at h; exact absurd h (by simp)
                | ok ptys =>
                  rw [h6] at h; dsimp only at h
                  cases h7 : Shape.parse_point_array s5 (i32AsU64 num_points) with
                  | error e => rw [h7] at h; exact absurd h (by simp)
                  | ok q7 =>
                    obtain ⟨pts, s6⟩ := q7
                    rw [h7] at h
                    simp only [Except.ok.injEq, Prod.mk.injEq] at h
                    obtain ⟨hbase, -, -⟩ := h
                    have hlids : ids.length = i32AsU64 num_parts :=
                      parse_array_length h5
                    have hlptys := unwrapPatchTypes_length h6
                    have hlpts : pts.length = i32AsU64 num_points :=
                      parse_array_length h7
                    rw [← hbase]
                    exact ⟨by simp [hlparts], by simp [hlpts],
                      fun _ => by simp [hlparts, hlptys, hlids]⟩
            · rw [if_neg h31] at h
              dsimp only at h
              cases h7 : Shape.parse_point_array s4 (i32AsU64 num_points) with
              | error e => rw [h7] at h; exact absurd h (by simp)
              | ok q7 =>
                obtain ⟨pts, s6⟩ := q7
                rw [h7] at h
                simp only [Except.ok.injEq, Prod.mk.injEq] at h
                obtain ⟨hbase, -, -⟩ := h
                have hlpts : pts.length = i32AsU64 num_points :=
                  parse_array_length h7
                rw [← hbase]
                exact ⟨by simp [hlparts], by simp [hlpts], fun hc => absurd hc h31⟩
  · rw [if_neg hpoly] at h
    have h31 : t ≠ Shape.STY_MULTI_PATCH := fun hc => hpoly (by tauto)
    by_cases hmp : t = Shape.STY_MULTI_POINT ∨ t = Shape.STY_MULTI_POINT_M ∨
        t = Shape.STY_MULTI_POINT_Z
    · rw [if_pos hmp] at h
      dsimp only at h
      cases h1 : BoundingBox.parse s with
      | error e => rw [h1] at h; exact absurd h (by simp)
      | ok q1 =>
        obtain ⟨bb, s1⟩ := q1
        rw [h1] at h; dsimp only at h
        cases h2 : readI32LE s1 with
        | error e => rw [h2] at h; exact absurd h (by simp)
        | ok q2 =>
          obtain ⟨num_points, s2⟩ := q2
          rw [h2] at h; dsimp only at h
          cases h3 : Shape.parse_point_array s2 (i32AsU64 num_points) with
          | error e => rw [h3] at h; exact absurd h (by simp)
          | ok q3 =>
            obtain ⟨pts, s3⟩ := q3
            rw [h3] at h
            simp only [Except.ok.injEq, Prod.mk.injEq] at h
            obtain ⟨hbase, -, -⟩ := h
            have hlpts : pts.length = i32AsU64 num_points :=
              parse_array_length h3
            rw [← hbase]
            refine ⟨by simp [ShapeBaseData.new, i32AsU64], by simp [hlpts],
              fun hc => absurd hc h31⟩
    · rw [if_neg hmp] at h
      simp only [Except.ok.injEq, Prod.mk.injEq] at h
      obtain ⟨hbase, -, -⟩ := h
      rw [← hbase]
      exact ⟨by simp [ShapeBaseData.new, i32AsU64],
        by simp [ShapeBaseData.new, i32AsU64], fun hc => absurd hc h31⟩

/-- What a successful `parseZM` does to the base data: the geometric fields
are untouched, and the Z/M arrays read in the Z- and M-families have exactly
`num_points` elements. -/
theorem parseZM_spec {t : Int} {b : ShapeBaseData} {len0 : Nat} {s : Stream8}
    {base : ShapeBaseData} {len : Nat} {s' : Stream8}
    (h : Shape.parseZM t b len0 s = .ok (base, len, s')) :
    base.parts = b.parts ∧ base.part_types = b.part_types ∧
    base.points = b.points ∧ base.num_points = b.num_points ∧
    ((t = Shape.STY_POLY_LINE_Z ∨ t = Shape.STY_POLYGON_Z ∨
      t = Shape.STY_MULTI_POINT_Z ∨ t = Shape.STY_MULTI_PATCH) →
      base.z.length = i32AsU64 b.num_points ∧ base.m.length = i32AsU64 b.num_points) ∧
    ((t = Shape.STY_POLY_LINE_M ∨ t = Shape.STY_POLYGON_M ∨
      t = Shape.STY_MULTI_POINT_M) →
      base.m.length = i32AsU64 b.num_points) := by
  unfold Shape.parseZM at h
  by_cases hz : t = Shape.STY_POLY_LINE_Z ∨ t = Shape.STY_POLYGON_Z ∨
      t = Shape.STY_MULTI_POINT_Z ∨ t = Shape.STY_MULTI_PATCH
  · have hm : ¬(t = Shape.STY_POLY_LINE_M ∨ t = Shape.STY_POLYGON_M ∨
        t = Shape.STY_MULTI_POINT_M) := by
      rcases hz with h' | h' | h' | h' <;> subst h' <;> simp [Shape.STY_POLY_LINE_Z,
        Shape.STY_POLYGON_Z, Shape.STY_MULTI_POINT_Z, Shape.STY_MULTI_PATCH,
        Shape.STY_POLY_LINE_M, Shape.STY_POLYGON_M, Shape.STY_MULTI_POINT_M]
    rw [if_pos hz] at h
    cases h1 : Shape.parse_f64_range_and_array s (i32AsU64 b.num_points) with
    | error e => rw [h1] at h; exact absurd h (by simp)
    | ok q1 =>
      obtain ⟨⟨z_range, z⟩, s1⟩ := q1
      rw [h1] at h; dsimp only at h
      cases h2 : Shape.parse_f64_range_and_array s1 (i32AsU64 b.num_points) with
      | error e => rw [h2] at h; exact absurd h (by simp)
      | ok q2 =>
        obtain ⟨⟨m_range, m⟩, s2⟩ := q2
        rw [h2] at h
        simp only [Except.ok.injEq, Prod.mk.injEq] at h
        obtain ⟨hbase, -, -⟩ := h
        have hlz : z.length = i32AsU64 b.num_points := by
          unfold Shape.parse_f64_range_and_array at h1
          cases g1 : readF64 s with
          | error e => rw [g1] at h1; exact absurd h1 (by simp)
          | ok p1 =>
            obtain ⟨v1, t1⟩ := p1
            rw [g1] at h1; dsimp only at h1
            cases g2 : readF64 t1 with
            | error e => rw [g2] at h1; exact absurd h1 (by simp)
            | ok p2 =>
              obtain ⟨v2, t2⟩ := p2
              rw [g2] at h1; dsimp only at h1
              cases g3 : Shape.parse_f64_array t2 (i32AsU64 b.num_points) with
              | error e => rw [g3] at h1; exact absurd h1 (by simp)
              | ok p3 =>
                obtain ⟨arr, t3⟩ := p3
                rw [g3] at h1
                simp only [Except.ok.injEq, Prod.mk.injEq] at h1
                obtain ⟨⟨-, harr⟩, -⟩ := h1
                rw [← harr]
                exact parse_array_length g3
        have hlm : m.length = i32AsU64 b.num_points := by
          unfold Shape.parse_f64_range_and_array at h2
          cases g1 : readF64 s1 with
          | error e => rw [g1] at h2; exact absurd h2 (by simp)
          | ok p1 =>
            obtain ⟨v1, t1⟩ := p1
            rw [g1] at h2; dsimp only at h2
            cases g2 : readF64 t1 with
            | error e => rw [g2] at h2; exact absurd h2 (by simp)
            | ok p2 =>
              obtain ⟨v2, t2⟩ := p2
              rw [g2] at h2; dsimp only at h2
              cases g3 : Shape.parse_f64_array t2 (i32AsU64 b.num_points) with
              | error e => rw [g3] at h2; exact absurd h2 (by simp)
              | ok p3 =>
                obtain ⟨arr, t3⟩ := p3
                rw [g3] at h2
                simp only [Except.ok.injEq, Prod.mk.injEq] at h2
                obtain ⟨⟨-, harr⟩, -⟩ := h2
                rw [← harr]
                exact parse_array_length g3
        rw [← hbase]
        exact ⟨rfl, rfl, rfl, rfl, fun _ => ⟨hlz, hlm⟩, fun hc => absurd hc hm⟩
  · rw [if_neg hz] at h
    by_cases hm : t = Shape.STY_POLY_LINE_M ∨ t = Shape.STY_POLYGON_M ∨
        t = Shape.STY_MULTI_POINT_M
    · rw [if_pos hm] at h
      cases h1 : Shape.parse_f64_range_and_array s (i32AsU64 b.num_points) with
      | error e => rw [h1] at h; exact absurd h (by simp)
      | ok q1 =>
        obtain ⟨⟨m_range, m⟩, s1⟩ := q1
        rw [h1] at h
        simp only [Except.ok.injEq, Prod.mk.injEq] at h
        obtain ⟨hbase, -, -⟩ := h
        have hlm : m.length = i32AsU64 b.num_points := by
          unfold Shape.parse_f64_range_and_array at h1
          cases g1 : readF64 s with
          | error e => rw [g1] at h1; exact absurd h1 (by simp)
          | ok p1 =>
            obtain ⟨v1, t1⟩ := p1
            rw [g1] at h1; dsimp only at h1
            cases g2 : readF64 t1 with
            | error e => rw [g2] at h1; exact absurd h1 (by simp)
            | ok p2 =>
              obtain ⟨v2, t2⟩ := p2
              rw [g2] at h1; dsimp only at h1
              cases g3 : Shape.parse_f64_array t2 (i32AsU64 b.num_points) with
              | error e => rw [g3] at h1; exact absurd h1 (by simp)
              | ok p3 =>
                obtain ⟨arr, t3⟩ := p3
                rw [g3] at h1
                simp only [Except.ok.injEq, Prod.mk.injEq] at h1
                obtain ⟨⟨-, harr⟩, -⟩ := h1
                rw [← harr]
                exact parse_array_length g3
        rw [← hbase]
        exact ⟨rfl, rfl, rfl, rfl, fun hc => absurd hc hz, fun _ => hlm⟩
    · rw [if_neg hm] at h
      simp only [Except.ok.injEq, Prod.mk.injEq] at h
      obtain ⟨hbase, -, -⟩ := h
      rw [← hbase]
      exact ⟨rfl, rfl, rfl, rfl, fun hc => absurd hc hz, fun hc => absurd hc hm⟩

theorem parse_point_type_coherent {s : Stream8} {t : Int} {sh : Shape} {n : Nat}
    {s' : Stream8} (h : Shape.parse_point_type s t = .ok (sh, n, s')) :
    lengthCoherent sh := by
  unfold Shape.parse_point_type at h
  split_ifs at h
  case _ =>
    cases h1 : readF64 s with
    | error e => rw [h1] at h; exact absurd h (by simp)
    | ok q1 =>
      obtain ⟨x, s1⟩ := q1
      rw [h1] at h; dsimp only at h
      cases h2 : readF64 s1 with
      | error e => rw [h2] at h; exact absurd h (by simp)
      | ok q2 =>
        obtain ⟨y, s2⟩ := q2
        rw [h2] at h
        simp only [Except.ok.injEq, Prod.mk.injEq] at h
        obtain ⟨hsh, -, -⟩ := h
        rw [← hsh]
        trivial
  case _ =>
    cases h1 : readF64 s with
    | error e => rw [h1] at h; exact absurd h (by simp)
    | ok q1 =>
      obtain ⟨x, s1⟩ := q1
      rw [h1] at h; dsimp only at h
      cases h2 : readF64 s1 with
      | error e => rw [h2] at h; exact absurd h (by simp)
      | ok q2 =>
        obtain ⟨y, s2⟩ := q2
        rw [h2] at h; dsimp only at h
        cases h3 : readF64 s2 with
        | error e => rw [h3] at h; exact absurd h (by simp)
        | ok q3 =>
          obtain ⟨m, s3⟩ := q3
          rw [h3] at h
          simp only [Except.ok.injEq, Prod.mk.injEq] at h
          obtain ⟨hsh, -, -⟩ := h
          rw [← hsh]
          trivial
  case _ =>
    cases h1 : readF64 s with
    | error e => rw [h1] at h; exact absurd h (by simp)
    | ok q1 =>
      obtain ⟨x, s1⟩ := q1
      rw [h1] at h; dsimp only at h
      cases h2 : readF64 s1 with
      | error e => rw [h2] at h; exact absurd h (by simp)
      | ok q2 =>
        obtain ⟨y, s2⟩ := q2
        rw [h2] at h; dsimp only at h
        cases h3 : readF64 s2 with
        | error e => rw [h3] at h; exact absurd h (by simp)
        | ok q3 =>
          obtain ⟨z, s3⟩ := q3
          rw [h3] at h; dsimp only at h
          cases h4 : readF64 s3 with
          | error e => rw [h4] at h; exact absurd h (by simp)
          | ok q4 =>
            obtain ⟨m, s4⟩ := q4
            rw [h4] at h
            simp only [Except.ok.injEq, Prod.mk.injEq] at h
            obtain ⟨hsh, -, -⟩ := h
            rw [← hsh]
            trivial

/-- If the record loop succeeds, the `k`-th returned record is exactly what
one `ShpRecord.parse` yields at the `k`-th record boundary of the stream. -/
theorem parseRecordsLoop_get :
    ∀ (k : Nat) {fuel target c : Nat} {s : Stream8} {rs : List ShpRecord},
      parseRecordsLoop fuel target c s = .ok rs → k < rs.length →
      ∃ sk r n sk', recStream s k = some sk ∧ rs[k]? = some r ∧
        ShpRecord.parse sk = .ok (r, n, sk') := by
  intro k
  induction k with
  | zero =>
    intro fuel target c s rs h hk
    match fuel with
    | 0 => simp [parseRecordsLoop] at h
    | fuel + 1 =>
      unfold parseRecordsLoop at h
      by_cases hc : c < target
      · rw [if_pos hc] at h
        cases hp : ShpRecord.parse s with
        | error e => rw [hp] at h; exact absurd h (by simp)
        | ok q =>
          obtain ⟨r, n, s'⟩ := q
          rw [hp] at h; dsimp only at h
          cases hl : parseRecordsLoop fuel target (uAdd c n) s' with
          | error e => rw [hl] at h; exact absurd h (by simp)
          | ok rs' =>
            rw [hl] at h
            simp only [Except.ok.injEq] at h
            subst h
            exact ⟨s, r, n, s', rfl, by simp, hp⟩
      · rw [if_neg hc] at h
        simp only [Except.ok.injEq] at h
        subst h
        simp at hk
  | succ k ih =>
    intro fuel target c s rs h hk
    match fuel with
    | 0 => simp [parseRecordsLoop] at h
    | fuel + 1 =>
      unfold parseRecordsLoop at h
      by_cases hc : c < target
      · rw [if_pos hc] at h
        cases hp : ShpRecord.parse s with
        | error e => rw [hp] at h; exact absurd h (by simp)
        | ok q =>
          obtain ⟨r, n, s'⟩ := q
          rw [hp] at h; dsimp only at h
          cases hl : parseRecordsLoop fuel target (uAdd c n) s' with
          | error e => rw [hl] at h; exact absurd h (by simp)
          | ok rs' =>
            rw [hl] at h
            simp only [Except.ok.injEq] at h
            subst h
            have hk' : k < rs'.length := by simpa using hk
            obtain ⟨sk, r', n', sk', h1, h2, h3⟩ := ih hl hk'
            refine ⟨sk, r', n', sk', ?_, ?_, h3⟩
            · unfold recStream
              rw [hp]
              dsimp only
              exact h1
            · simpa using h2
      · rw [if_neg hc] at h
        simp only [Except.ok.injEq] at h
        subst h
        simp at hk

/-! ## Claim theorems -/

/-- C3: decoding a MultiPatch whose patch-type code list contains the
unrecognized code 6 does not return an `Err` result and does not return a
shape with a defaulted patch type: the decode aborts with a Rust panic
(`Option::unwrap` on `None`), modelled by the distinguished
`ParseErr.panicked` outcome. -/
theorem C3_multipatch_bad_patch_code_panics :
    Shape.parse c3Buf = .error .panicked := by rfl

/-- C9 counterexample: the 64-byte PolyLine buffer `c9Buf` declares a single
part whose start index is 7; `Shape.parse` accepts it unchanged, producing a
parts list whose first element is not 0 and is not a valid index into the
single-element point sequence, so the claimed parts invariant fails on a
successfully decoded shape. -/
theorem C9_parts_invariant_counterexample :
    Shape.parse c9Buf = .ok (.PolyLine ⟨0, 0, 0, 0⟩ [7] [⟨0, 0⟩], 64, []) ∧
      ¬ partsSpecInvariant [7] 1 := by
  constructor
  · rfl
  · decide

/-- C1 counterexample: on the 20-byte Point buffer (tag 1, x = 0.25,
y = 0.5) the `Shape::parse` of src/shpfile.rs and src/filetypes/shpfile.rs
returns consumed length 16 — the 4-byte type tag is not counted — although
the claim requires 20 for every cited `Shape::parse`. -/
theorem C1_point_tag_length_counterexample :
    Shape.parseShpfile c1PointBuf =
      .ok (.Point ⟨4598175219545276416, 4602678819172646912⟩, 16, []) := by rfl

/-- C9 (amended): `Shape::parse` copies the declared part-start indices
verbatim and performs no validation of them — they need not be ascending,
start at 0, or be valid indices into `points` (see the counterexample).  What
every successfully decoded shape does satisfy is length coherence: the
MultiPatch patch-type list has the same length as `parts`, and Z/M arrays,
where present, have the same length as `points`. -/
theorem C9_length_coherence_amended {s : Stream8} {sh : Shape} {n : Nat} {s' : Stream8}
    (h : Shape.parse s = .ok (sh, n, s')) : lengthCoherent sh := by
  unfold Shape.parse at h
  cases h0 : readI32LE s with
  | error e => rw [h0] at h; exact absurd h (by simp)
  | ok q0 =>
    obtain ⟨t, s1⟩ := q0
    rw [h0] at h; dsimp only at h
    by_cases hp : t = Shape.STY_POINT ∨ t = Shape.STY_POINT_M ∨ t = Shape.STY_POINT_Z
    · rw [if_pos hp] at h
      cases h1 : Shape.parse_point_type s1 t with
      | error e => rw [h1] at h; exact absurd h (by simp)
      | ok q1 =>
        obtain ⟨sh1, sz, s2⟩ := q1
        rw [h1] at h
        simp only [Except.ok.injEq, Prod.mk.injEq] at h
        obtain ⟨hsh, -, -⟩ := h
        rw [← hsh]
        exact parse_point_type_coherent h1
    · rw [if_neg hp] at h
      cases h1 : Shape.parseBase t s1 ShapeBaseData.new 4 with
      | error e => rw [h1] at h; exact absurd h (by simp)
      | ok q1 =>
        obtain ⟨base1, len1, s2⟩ := q1
        rw [h1] at h; dsimp only at h
        cases h2 : Shape.parseZM t base1 len1 s2 with
        | error e => rw [h2] at h; exact absurd h (by simp)
        | ok q2 =>
          obtain ⟨base2, len2, s3⟩ := q2
          rw [h2] at h
          simp only [Except.ok.injEq, Prod.mk.injEq] at h
          obtain ⟨hsh, -, -⟩ := h
          rw [← hsh]
          obtain ⟨hb1, hb2, hb3⟩ := parseBase_new_spec h1
          obtain ⟨hz1, hz2, hz3, hz4, hzZ, hzM⟩ := parseZM_spec h2
          unfold Shape.shape_from_base_data
          by_cases g1 : t = Shape.STY_POLY_LINE
          · rw [if_pos g1]; trivial
          rw [if_neg g1]
          by_cases g2 : t = Shape.STY_POLY_LINE_M
          · rw [if_pos g2]
            simp only [lengthCoherent]
            rw [hz3, hb2]
            exact hzM (Or.inl g2)
          rw [if_neg g2]
          by_cases g3 : t = Shape.STY_POLY_LINE_Z
          · rw [if_pos g3]
            simp only [lengthCoherent]
            rw [hz3, hb2]
            exact hzZ (Or.inl g3)
          rw [if_neg g3]
          by_cases g4 : t = Shape.STY_POLYGON
          · rw [if_pos g4]; trivial
          rw [if_neg g4]
          by_cases g5 : t = Shape.STY_POLYGON_M
          · rw [if_pos g5]
            simp only [lengthCoherent]
            rw [hz3, hb2]
            exact hzM (Or.inr (Or.inl g5))
          rw [if_neg g5]
          by_cases g6 : t = Shape.STY_POLYGON_Z
          · rw [if_pos g6]
            simp only [lengthCoherent]
            rw [hz3, hb2]
            exact hzZ (Or.inr (Or.inl g6))
          rw [if_neg g6]
          by_cases g7 : t = Shape.STY_MULTI_POINT
          · rw [if_pos g7]; trivial
          rw [if_neg g7]
          by_cases g8 : t = Shape.STY_MULTI_POINT_M
          · rw [if_pos g8]
            simp only [lengthCoherent]
            rw [hz3, hb2]
            exact hzM (Or.inr (Or.inr g8))
          rw [if_neg g8]
          by_cases g9 : t = Shape.STY_MULTI_POINT_Z
          · rw [if_pos g9]
            simp only [lengthCoherent]
            rw [hz3, hb2]
            exact hzZ (Or.inr (Or.inr (Or.inl g9)))
          rw [if_neg g9]
          by_cases g10 : t = Shape.STY_MULTI_PATCH
          · rw [if_pos g10]
            simp only [lengthCoherent]
            rw [hz1, hz2, hz3, hb2]
            exact ⟨hb3 g10, hzZ (Or.inr (Or.inr (Or.inr g10)))⟩
          rw [if_neg g10]
          by_cases g11 : t = Shape.STY_NULL_SHAPE
          · rw [if_pos g11]; trivial
          rw [if_neg g11]
          trivial

/-- C9 witness: the amended theorem applied to the concrete 88-byte PolyLineM
buffer `c9MBuf`, whose decode succeeds with one point and one M value. -/
theorem C9_length_coherence_amended_witness :
    lengthCoherent (Shape.PolyLineM ⟨0, 0, 0, 0⟩ [0] [⟨0, 0⟩] ⟨0, 0⟩ [0]) :=
  C9_length_coherence_amended
    (rfl : Shape.parse c9MBuf = .ok (.PolyLineM ⟨0, 0, 0, 0⟩ [0] [⟨0, 0⟩] ⟨0, 0⟩ [0], 88, []))

/-- C8: whenever the 4-byte little-endian type tag decodes to a value outside
the 14 recognized shape-type codes, `Shape::parse` succeeds and returns
`NullShape` with consumed length exactly 4, leaving the rest of the stream
untouched. -/
theorem C8_unknown_tag_nullshape (b0 b1 b2 b3 : Nat) (rest : Stream8)
    (h : i32ofNat (leNat [b0, b1, b2, b3]) ∉ recognizedShapeTypes) :
    Shape.parse (b0 :: b1 :: b2 :: b3 :: rest) = .ok (.NullShape, 4, rest) := by
  set t := i32ofNat (leNat [b0, b1, b2, b3]) with ht
  simp only [recognizedShapeTypes, List.mem_cons, List.not_mem_nil, or_false] at h
  push_neg at h
  obtain ⟨e0, e1, e3, e5, e8, e11, e13, e15, e18, e21, e23, e25, e28, e31⟩ := h
  have hpoint : ¬(t = Shape.STY_POINT ∨ t = Shape.STY_POINT_M ∨ t = Shape.STY_POINT_Z) := by
    simp only [Shape.STY_POINT, Shape.STY_POINT_M, Shape.STY_POINT_Z]
    push_neg
    exact ⟨e1, e21, e11⟩
  have hpoly : ¬(t = Shape.STY_POLY_LINE ∨ t = Shape.STY_POLYGON ∨
      t = Shape.STY_POLY_LINE_M ∨ t = Shape.STY_POLYGON_M ∨
      t = Shape.STY_POLY_LINE_Z ∨ t = Shape.STY_POLYGON_Z ∨
      t = Shape.STY_MULTI_PATCH) := by
    simp only [Shape.STY_POLY_LINE, Shape.STY_POLYGON, Shape.STY_POLY_LINE_M,
      Shape.STY_POLYGON_M, Shape.STY_POLY_LINE_Z, Shape.STY_POLYGON_Z,
      Shape.STY_MULTI_PATCH]
    push_neg
    exact ⟨e3, e5, e23, e25, e13, e15, e31⟩
  have hmp : ¬(t = Shape.STY_MULTI_POINT ∨ t = Shape.STY_MULTI_POINT_M ∨
      t = Shape.STY_MULTI_POINT_Z) := by
    simp only [Shape.STY_MULTI_POINT, Shape.STY_MULTI_POINT_M, Shape.STY_MULTI_POINT_Z]
    push_neg
    exact ⟨e8, e28, e18⟩
  have hzf : ¬(t = Shape.STY_POLY_LINE_Z ∨ t = Shape.STY_POLYGON_Z ∨
      t = Shape.STY_MULTI_POINT_Z ∨ t = Shape.STY_MULTI_PATCH) := by
    simp only [Shape.STY_POLY_LINE_Z, Shape.STY_POLYGON_Z, Shape.STY_MULTI_POINT_Z,
      Shape.STY_MULTI_PATCH]
    push_neg
    exact ⟨e13, e15, e18, e31⟩
  have hmf : ¬(t = Shape.STY_POLY_LINE_M ∨ t = Shape.STY_POLYGON_M ∨
      t = Shape.STY_MULTI_POINT_M) := by
    simp only [Shape.STY_POLY_LINE_M, Shape.STY_POLYGON_M, Shape.STY_MULTI_POINT_M]
    push_neg
    exact ⟨e23, e25, e28⟩
  have hpb : Shape.parseBase t rest ShapeBaseData.new 4 = .ok (ShapeBaseData.new, 4, rest) := by
    unfold Shape.parseBase
    rw [if_neg hpoly, if_neg hmp]
  have hpz : Shape.parseZM t ShapeBaseData.new 4 rest = .ok (ShapeBaseData.new, 4, rest) := by
    unfold Shape.parseZM
    rw [if_neg hzf, if_neg hmf]
  have hsf : Shape.shape_from_base_data t ShapeBaseData.new = .NullShape := by
    unfold Shape.shape_from_base_data
    rw [if_neg (show ¬t = Shape.STY_POLY_LINE by simpa [Shape.STY_POLY_LINE] using e3),
      if_neg (show ¬t = Shape.STY_POLY_LINE_M by simpa [Shape.STY_POLY_LINE_M] using e23),
      if_neg (show ¬t = Shape.STY_POLY_LINE_Z by simpa [Shape.STY_POLY_LINE_Z] using e13),
      if_neg (show ¬t = Shape.STY_POLYGON by simpa [Shape.STY_POLYGON] using e5),
      if_neg (show ¬t = Shape.STY_POLYGON_M by simpa [Shape.STY_POLYGON_M] using e25),
      if_neg (show ¬t = Shape.STY_POLYGON_Z by simpa [Shape.STY_POLYGON_Z] using e15),
      if_neg (show ¬t = Shape.STY_MULTI_POINT by simpa [Shape.STY_MULTI_POINT] using e8),
      if_neg (show ¬t = Shape.STY_MULTI_POINT_M by simpa [Shape.STY_MULTI_POINT_M] using e28),
      if_neg (show ¬t = Shape.STY_MULTI_POINT_Z by simpa [Shape.STY_MULTI_POINT_Z] using e18),
      if_neg (show ¬t = Shape.STY_MULTI_PATCH by simpa [Shape.STY_MULTI_PATCH] using e31),
      if_neg (show ¬t = Shape.STY_NULL_SHAPE by simpa [Shape.STY_NULL_SHAPE] using e0)]
  have hr : readI32LE (b0 :: b1 :: b2 :: b3 :: rest) = .ok (t, rest) := by
    rw [ht]
    rfl
  unfold Shape.parse
  rw [hr]
  dsimp only
  rw [if_neg hpoint, hpb]
  dsimp only
  rw [hpz]
  dsimp only
  rw [hsf]

/-- C8 witness: the tag value 2 is not a recognized shape-type code, and the
4-byte buffer carrying it decodes to `NullShape` with length 4. -/
theorem C8_unknown_tag_nullshape_witness :
    i32ofNat (leNat [2, 0, 0, 0]) ∉ recognizedShapeTypes ∧
      Shape.parse [2, 0, 0, 0] = .ok (.NullShape, 4, []) :=
  ⟨by decide, C8_unknown_tag_nullshape 2 0 0 0 [] (by decide)⟩

/-- C1 (amended): for geometry buffers of the point family (and the 4-byte
NullShape buffer), the exported codec `Shape::parse` of src/shape.rs returns
the decoded shape together with the exact total byte count including the
4-byte type tag — 4, 20, 28 and 36 — consuming the whole buffer; the
`Shape::parse` copies in src/shpfile.rs and src/filetypes/shpfile.rs return
the same shapes but report the point-family lengths without the tag — 16, 24
and 32 (NullShape is still 4). -/
theorem C1_point_lengths_amended :
    (∀ rest : Stream8,
      Shape.parse ((0 : Nat) :: 0 :: 0 :: 0 :: rest) = .ok (.NullShape, 4, rest) ∧
      Shape.parseShpfile ((0 : Nat) :: 0 :: 0 :: 0 :: rest) = .ok (.NullShape, 4, rest)) ∧
    (∀ x y : Nat, x < 18446744073709551616 → y < 18446744073709551616 →
      Shape.parse ((1 : Nat) :: 0 :: 0 :: 0 :: (f64le x ++ f64le y)) =
        .ok (.Point ⟨x, y⟩, 20, []) ∧
      Shape.parseShpfile ((1 : Nat) :: 0 :: 0 :: 0 :: (f64le x ++ f64le y)) =
        .ok (.Point ⟨x, y⟩, 16, [])) ∧
    (∀ x y m : Nat, x < 18446744073709551616 → y < 18446744073709551616 →
        m < 18446744073709551616 →
      Shape.parse ((21 : Nat) :: 0 :: 0 :: 0 :: (f64le x ++ f64le y ++ f64le m)) =
        .ok (.PointM ⟨x, y, m⟩, 28, []) ∧
      Shape.parseShpfile ((21 : Nat) :: 0 :: 0 :: 0 :: (f64le x ++ f64le y ++ f64le m)) =
        .ok (.PointM ⟨x, y, m⟩, 24, [])) ∧
    (∀ x y z m : Nat, x < 18446744073709551616 → y < 18446744073709551616 →
        z < 18446744073709551616 → m < 18446744073709551616 →
      Shape.parse ((11 : Nat) :: 0 :: 0 :: 0 :: (f64le x ++ f64le y ++ f64le z ++ f64le m)) =
        .ok (.PointZ ⟨x, y, z, m⟩, 36, []) ∧
      Shape.parseShpfile ((11 : Nat) :: 0 :: 0 :: 0 :: (f64le x ++ f64le y ++ f64le z ++ f64le m)) =
        .ok (.PointZ ⟨x, y, z, m⟩, 32, [])) := by
  refine ⟨fun rest => ⟨rfl, rfl⟩, ?_, ?_, ?_⟩
  · intro x y hx hy
    have hrx : readF64 (f64le x ++ f64le y) = .ok (x, f64le y) := by
      rw [readF64_f64le, Nat.mod_eq_of_lt hx]
    have hry : readF64 (f64le y) = .ok (y, []) := by
      rw [readF64_f64le_nil, Nat.mod_eq_of_lt hy]
    have hpt : Shape.parse_point_type (f64le x ++ f64le y) 1 =
        .ok (.Point ⟨x, y⟩, 16, []) := by
      unfold Shape.parse_point_type
      rw [if_pos (show (1 : Int) = Shape.STY_POINT from rfl), hrx]
      dsimp only
      rw [hry]
    have hcond : (1 : Int) = Shape.STY_POINT ∨ (1 : Int) = Shape.STY_POINT_M ∨
        (1 : Int) = Shape.STY_POINT_Z := Or.inl rfl
    constructor
    · unfold Shape.parse
      rw [show readI32LE ((1 : Nat) :: 0 :: 0 :: 0 :: (f64le x ++ f64le y)) =
        .ok (1, f64le x ++ f64le y) from rfl]
      dsimp only
      rw [if_pos hcond, hpt]
      dsimp only
      norm_num [uAdd]
    · unfold Shape.parseShpfile
      rw [show readI32LE ((1 : Nat) :: 0 :: 0 :: 0 :: (f64le x ++ f64le y)) =
        .ok (1, f64le x ++ f64le y) from rfl]
      dsimp only
      rw [if_pos hcond]
      exact hpt
  · intro x y m hx hy hm
    have hrx : readF64 (f64le x ++ f64le y ++ f64le m) = .ok (x, f64le y ++ f64le m) := by
      rw [List.append_assoc, readF64_f64le, Nat.mod_eq_of_lt hx]
    have hry : readF64 (f64le y ++ f64le m) = .ok (y, f64le m) := by
      rw [readF64_f64le, Nat.mod_eq_of_lt hy]
    have hrm : readF64 (f64le m) = .ok (m, []) := by
      rw [readF64_f64le_nil, Nat.mod_eq_of_lt hm]
    have hpt : Shape.parse_point_type (f64le x ++ f64le y ++ f64le m) 21 =
        .ok (.PointM ⟨x, y, m⟩, 24, []) := by
      unfold Shape.parse_point_type
      rw [if_neg (show ¬(21 : Int) = Shape.STY_POINT by decide),
        if_pos (show (21 : Int) = Shape.STY_POINT_M from rfl), hrx]
      dsimp only
      rw [hry]
      dsimp only
      rw [hrm]
    have hcond : (21 : Int) = Shape.STY_POINT ∨ (21 : Int) = Shape.STY_POINT_M ∨
        (21 : Int) = Shape.STY_POINT_Z := Or.inr (Or.inl rfl)
    constructor
    · unfold Shape.parse
      rw [show readI32LE ((21 : Nat) :: 0 :: 0 :: 0 :: (f64le x ++ f64le y ++ f64le m)) =
        .ok (21, f64le x ++ f64le y ++ f64le m) from rfl]
      dsimp only
      rw [if_pos hcond, hpt]
      dsimp only
      norm_num [uAdd]
    · unfold Shape.parseShpfile
      rw [show readI32LE ((21 : Nat) :: 0 :: 0 :: 0 :: (f64le x ++ f64le y ++ f64le m)) =
        .ok (21, f64le x ++ f64le y ++ f64le m) from rfl]
      dsimp only
      rw [if_pos hcond]
      exact hpt
  · intro x y z m hx hy hz hm
    have hrx : readF64 (f64le x ++ f64le y ++ f64le z ++ f64le m) =
        .ok (x, f64le y ++ f64le z ++ f64le m) := by
      rw [List.append_assoc, List.append_assoc, readF64_f64le, Nat.mod_eq_of_lt hx,
        ← List.append_assoc]
    have hry : readF64 (f64le y ++ f64le z ++ f64le m) = .ok (y, f64le z ++ f64le m) := by
      rw [List.append_assoc, readF64_f64le, Nat.mod_eq_of_lt hy]
    have hrz : readF64 (f64le z ++ f64le m) = .ok (z, f64le m) := by
      rw [readF64_f64le, Nat.mod_eq_of_lt hz]
    have hrm : readF64 (f64le m) = .ok (m, []) := by
      rw [readF64_f64le_nil, Nat.mod_eq_of_lt hm]
    have hpt : Shape.parse_point_type (f64le x ++ f64le y ++ f64le z ++ f64le m) 11 =
        .ok (.PointZ ⟨x, y, z, m⟩, 32, []) := by
      unfold Shape.parse_point_type
      rw [if_neg (show ¬(11 : Int) = Shape.STY_POINT by decide),
        if_neg (show ¬(11 : Int) = Shape.STY_POINT_M by decide),
        if_pos (show (11 : Int) = Shape.STY_POINT_Z from rfl), hrx]
      dsimp only
      rw [hry]
      dsimp only
      rw [hrz]
      dsimp only
      rw [hrm]
    have hcond : (11 : Int) = Shape.STY_POINT ∨ (11 : Int) = Shape.STY_POINT_M ∨
        (11 : Int) = Shape.STY_POINT_Z := Or.inr (Or.inr rfl)
    constructor
    · unfold Shape.parse
      rw [show readI32LE ((11 : Nat) :: 0 :: 0 :: 0 ::
        (f64le x ++ f64le y ++ f64le z ++ f64le m)) =
        .ok (11, f64le x ++ f64le y ++ f64le z ++ f64le m) from rfl]
      dsimp only
      rw [if_pos hcond, hpt]
      dsimp only
      norm_num [uAdd]
    · unfold Shape.parseShpfile
      rw [show readI32LE ((11 : Nat) :: 0 :: 0 :: 0 ::
        (f64le x ++ f64le y ++ f64le z ++ f64le m)) =
        .ok (11, f64le x ++ f64le y ++ f64le z ++ f64le m) from rfl]
      dsimp only
      rw [if_pos hcond]
      exact hpt

/-- C1 witness: the amended theorem instantiated on concrete buffers — the
4-byte NullShape buffer, a Point buffer carrying 0.25/0.5, a PointM buffer
carrying 1.0/1.2/1.4 and a PointZ buffer carrying 1.0/1.2/1.4/1.6 (IEEE-754
bit patterns). -/
theorem C1_point_lengths_amended_witness :
    (Shape.parse ((0 : Nat) :: 0 :: 0 :: 0 :: []) = .ok (.NullShape, 4, []) ∧
      Shape.parseShpfile ((0 : Nat) :: 0 :: 0 :: 0 :: []) = .ok (.NullShape, 4, [])) ∧
    (Shape.parse ((1 : Nat) :: 0 :: 0 :: 0 ::
        (f64le 4598175219545276416 ++ f64le 4602678819172646912)) =
      .ok (.Point ⟨4598175219545276416, 4602678819172646912⟩, 20, []) ∧
      Shape.parseShpfile ((1 : Nat) :: 0 :: 0 :: 0 ::
        (f64le 4598175219545276416 ++ f64le 4602678819172646912)) =
      .ok (.Point ⟨4598175219545276416, 4602678819172646912⟩, 16, [])) ∧
    (Shape.parse ((21 : Nat) :: 0 :: 0 :: 0 :: (f64le 4607182418800017408 ++
        f64le 4608083138725491507 ++ f64le 4608983858650965606)) =
      .ok (.PointM ⟨4607182418800017408, 4608083138725491507, 4608983858650965606⟩, 28, []) ∧
      Shape.parseShpfile ((21 : Nat) :: 0 :: 0 :: 0 :: (f64le 4607182418800017408 ++
        f64le 4608083138725491507 ++ f64le 4608983858650965606)) =
      .ok (.PointM ⟨4607182418800017408, 4608083138725491507, 4608983858650965606⟩, 24, [])) ∧
    (Shape.parse ((11 : Nat) :: 0 :: 0 :: 0 :: (f64le 4607182418800017408 ++
        f64le 4608083138725491507 ++ f64le 4608983858650965606 ++ f64le 4609884578576439706)) =
      .ok (.PointZ ⟨4607182418800017408, 4608083138725491507, 4608983858650965606,
        4609884578576439706⟩, 36, []) ∧
      Shape.parseShpfile ((11 : Nat) :: 0 :: 0 :: 0 :: (f64le 4607182418800017408 ++
        f64le 4608083138725491507 ++ f64le 4608983858650965606 ++ f64le 4609884578576439706)) =
      .ok (.PointZ ⟨4607182418800017408, 4608083138725491507, 4608983858650965606,
        4609884578576439706⟩, 32, [])) :=
  ⟨C1_point_lengths_amended.1 [],
   C1_point_lengths_amended.2.1 4598175219545276416 4602678819172646912
     (by decide) (by decide),
   C1_point_lengths_amended.2.2.1 4607182418800017408 4608083138725491507
     4608983858650965606 (by decide) (by decide) (by decide),
   C1_point_lengths_amended.2.2.2 4607182418800017408 4608083138725491507
     4608983858650965606 4609884578576439706 (by decide) (by decide) (by decide) (by decide)⟩

theorem parse_array_zero {V : Type} {f : Stream8 → Except ParseErr (V × Stream8)}
    {s : Stream8} : Shape.parse_array f 0 s = .ok ([], s) := rfl

theorem parse_array_step {V : Type} {f : Stream8 → Except ParseErr (V × Stream8)}
    {s : Stream8} {v : V} {s1 : Stream8} (h : f s = .ok (v, s1)) {n : Nat}
    {l : List V} {s2 : Stream8} (h2 : Shape.parse_array f n s1 = .ok (l, s2)) :
    Shape.parse_array f (n + 1) s = .ok (v :: l, s2) := by
  unfold Shape.parse_array
  rw [h]
  dsimp only
  rw [h2]

theorem readI32LE_smallByte {k : Nat} (R : Stream8) (hk : k < 2147483648) :
    readI32LE (k :: 0 :: 0 :: 0 :: R) = .ok ((k : Int), R) := by
  simp only [readI32LE]
  rw [show leNat [k, 0, 0, 0] = k by simp [leNat], i32ofNat_small hk]

theorem readI32LE_quad (b0 b1 b2 b3 : Nat) (R : Stream8) :
    readI32LE (b0 :: b1 :: b2 :: b3 :: R) = .ok (i32ofNat (leNat [b0, b1, b2, b3]), R) := rfl

/-- C4: a PolyLineM buffer with 2 parts starting at 0 and 2, 4 points, an M
range and 4 M values decodes (via the src/shape.rs `Shape::parse`) to exactly
those fields with total consumed length 164; reinterpreting the same payload
bytes under tag 25 instead of 23 yields a PolygonM with bit-identical
bounding box, parts, points, M-range and M-value fields, also of length 164. -/
theorem C4_polylinem_polygonm_layout
    (bb1 bb2 bb3 bb4 p1x p1y p2x p2y p3x p3y p4x p4y mr1 mr2 m1 m2 m3 m4 : Nat)
    (h1 : bb1 < 18446744073709551616) (h2 : bb2 < 18446744073709551616)
    (h3 : bb3 < 18446744073709551616) (h4 : bb4 < 18446744073709551616)
    (h5 : p1x < 18446744073709551616) (h6 : p1y < 18446744073709551616)
    (h7 : p2x < 18446744073709551616) (h8 : p2y < 18446744073709551616)
    (h9 : p3x < 18446744073709551616) (h10 : p3y < 18446744073709551616)
    (h11 : p4x < 18446744073709551616) (h12 : p4y < 18446744073709551616)
    (h13 : mr1 < 18446744073709551616) (h14 : mr2 < 18446744073709551616)
    (h15 : m1 < 18446744073709551616) (h16 : m2 < 18446744073709551616)
    (h17 : m3 < 18446744073709551616) (h18 : m4 < 18446744073709551616) :
    Shape.parse ((23 : Nat) :: 0 :: 0 :: 0 ::
        c4Payload bb1 bb2 bb3 bb4 p1x p1y p2x p2y p3x p3y p4x p4y mr1 mr2 m1 m2 m3 m4) =
      .ok (.PolyLineM ⟨bb1, bb2, bb3, bb4⟩ [0, 2]
        [⟨p1x, p1y⟩, ⟨p2x, p2y⟩, ⟨p3x, p3y⟩, ⟨p4x, p4y⟩] ⟨mr1, mr2⟩ [m1, m2, m3, m4],
        164, []) ∧
    Shape.parse ((25 : Nat) :: 0 :: 0 :: 0 ::
        c4Payload bb1 bb2 bb3 bb4 p1x p1y p2x p2y p3x p3y p4x p4y mr1 mr2 m1 m2 m3 m4) =
      .ok (.PolygonM ⟨bb1, bb2, bb3, bb4⟩ [0, 2]
        [⟨p1x, p1y⟩, ⟨p2x, p2y⟩, ⟨p3x, p3y⟩, ⟨p4x, p4y⟩] ⟨mr1, mr2⟩ [m1, m2, m3, m4],
        164, []) := by
  have r01 : ∀ R, readF64 (f64le bb1 ++ R) = .ok (bb1, R) := fun R => by
    rw [readF64_f64le, Nat.mod_eq_of_lt h1]
  have r02 : ∀ R, readF64 (f64le bb2 ++ R) = .ok (bb2, R) := fun R => by
    rw [readF64_f64le, Nat.mod_eq_of_lt h2]
  have r03 : ∀ R, readF64 (f64le bb3 ++ R) = .ok (bb3, R) := fun R => by
    rw [readF64_f64le, Nat.mod_eq_of_lt h3]
  have r04 : ∀ R, readF64 (f64le bb4 ++ R) = .ok (bb4, R) := fun R => by
    rw [readF64_f64le, Nat.mod_eq_of_lt h4]
  have r05 : ∀ R, readF64 (f64le p1x ++ R) = .ok (p1x, R) := fun R => by
    rw [readF64_f64le, Nat.mod_eq_of_lt h5]
  have r06 : ∀ R, readF64 (f64le p1y ++ R) = .ok (p1y, R) := fun R => by
    rw [readF64_f64le, Nat.mod_eq_of_lt h6]
  have r07 : ∀ R, readF64 (f64le p2x ++ R) = .ok (p2x, R) := fun R => by
    rw [readF64_f64le, Nat.mod_eq_of_lt h7]
  have r08 : ∀ R, readF64 (f64le p2y ++ R) = .ok (p2y, R) := fun R => by
    rw [readF64_f64le, Nat.mod_eq_of_lt h8]
  have r09 : ∀ R, readF64 (f64le p3x ++ R) = .ok (p3x, R) := fun R => by
    rw [readF64_f64le, Nat.mod_eq_of_lt h9]
  have r10 : ∀ R, readF64 (f64le p3y ++ R) = .ok (p3y, R) := fun R => by
    rw [readF64_f64le, Nat.mod_eq_of_lt h10]
  have r11 : ∀ R, readF64 (f64le p4x ++ R) = .ok (p4x, R) := fun R => by
    rw [readF64_f64le, Nat.mod_eq_of_lt h11]
  have r12 : ∀ R, readF64 (f64le p4y ++ R) = .ok (p4y, R) := fun R => by
    rw [readF64_f64le, Nat.mod_eq_of_lt h12]
  have r13 : ∀ R, readF64 (f64le mr1 ++ R) = .ok (mr1, R) := fun R => by
    rw [readF64_f64le, Nat.mod_eq_of_lt h13]
  have r14 : ∀ R, readF64 (f64le mr2 ++ R) = .ok (mr2, R) := fun R => by
    rw [readF64_f64le, Nat.mod_eq_of_lt h14]
  have r15 : ∀ R, readF64 (f64le m1 ++ R) = .ok (m1, R) := fun R => by
    rw [readF64_f64le, Nat.mod_eq_of_lt h15]
  have r16 : ∀ R, readF64 (f64le m2 ++ R) = .ok (m2, R) := fun R => by
    rw [readF64_f64le, Nat.mod_eq_of_lt h16]
  have r17 : ∀ R, readF64 (f64le m3 ++ R) = .ok (m3, R) := fun R => by
    rw [readF64_f64le, Nat.mod_eq_of_lt h17]
  have r18 : readF64 (f64le m4) = .ok (m4, []) := by
    rw [readF64_f64le_nil, Nat.mod_eq_of_lt h18]
  have q1 : ∀ R, Point.parse (f64le p1x ++ (f64le p1y ++ R)) = .ok (⟨p1x, p1y⟩, R) :=
    fun R => by unfold Point.parse; rw [r05]; dsimp only; rw [r06]
  have q2 : ∀ R, Point.parse (f64le p2x ++ (f64le p2y ++ R)) = .ok (⟨p2x, p2y⟩, R) :=
    fun R => by unfold Point.parse; rw [r07]; dsimp only; rw [r08]
  have q3 : ∀ R, Point.parse (f64le p3x ++ (f64le p3y ++ R)) = .ok (⟨p3x, p3y⟩, R) :=
    fun R => by unfold Point.parse; rw [r09]; dsimp only; rw [r10]
  have q4 : ∀ R, Point.parse (f64le p4x ++ (f64le p4y ++ R)) = .ok (⟨p4x, p4y⟩, R) :=
    fun R => by unfold Point.parse; rw [r11]; dsimp only; rw [r12]
  have qbb : ∀ R, BoundingBox.parse (f64le bb1 ++ (f64le bb2 ++ (f64le bb3 ++ (f64le bb4 ++ R)))) =
      .ok (⟨bb1, bb2, bb3, bb4⟩, R) := fun R => by
    unfold BoundingBox.parse
    rw [r01]; dsimp only; rw [r02]; dsimp only; rw [r03]; dsimp only; rw [r04]
  have qparts : ∀ R, Shape.parse_i32_array ((0 : Nat) :: 0 :: 0 :: 0 :: (2 :: 0 :: 0 :: 0 :: R))
      (i32AsU64 2) = .ok ([0, 2], R) := fun R => by
    unfold Shape.parse_i32_array
    exact parse_array_step (readI32LE_smallByte _ (by norm_num))
      (parse_array_step (readI32LE_smallByte _ (by norm_num)) parse_array_zero)
  have qpts : ∀ R, Shape.parse_point_array
      (f64le p1x ++ (f64le p1y ++ (f64le p2x ++ (f64le p2y ++ (f64le p3x ++ (f64le p3y ++
        (f64le p4x ++ (f64le p4y ++ R)))))))) (i32AsU64 4) =
      .ok ([⟨p1x, p1y⟩, ⟨p2x, p2y⟩, ⟨p3x, p3y⟩, ⟨p4x, p4y⟩], R) := fun R => by
    unfold Shape.parse_point_array
    exact parse_array_step (q1 _)
      (parse_array_step (q2 _) (parse_array_step (q3 _)
        (parse_array_step (q4 _) parse_array_zero)))
  have qma : Shape.parse_f64_array (f64le m1 ++ (f64le m2 ++ (f64le m3 ++ f64le m4)))
      (i32AsU64 4) = .ok ([m1, m2, m3, m4], []) := by
    unfold Shape.parse_f64_array
    exact parse_array_step (r15 _)
      (parse_array_step (r16 _) (parse_array_step (r17 _)
        (parse_array_step r18 parse_array_zero)))
  have qrange : Shape.parse_f64_range_and_array
      (f64le mr1 ++ (f64le mr2 ++ (f64le m1 ++ (f64le m2 ++ (f64le m3 ++ f64le m4)))))
      (i32AsU64 4) = .ok ((⟨mr1, mr2⟩, [m1, m2, m3, m4]), []) := by
    unfold Shape.parse_f64_range_and_array
    rw [r13]; dsimp only; rw [r14]; dsimp only; rw [qma]
  have hpb : ∀ t' : Int, (t' = Shape.STY_POLY_LINE_M ∨ t' = Shape.STY_POLYGON_M) →
      ∀ R : Stream8, Shape.parseBase t'
        (f64le bb1 ++ (f64le bb2 ++ (f64le bb3 ++ (f64le bb4 ++
          (2 :: 0 :: 0 :: 0 :: (4 :: 0 :: 0 :: 0 :: (0 :: 0 :: 0 :: 0 :: (2 :: 0 :: 0 :: 0 ::
            (f64le p1x ++ (f64le p1y ++ (f64le p2x ++ (f64le p2y ++ (f64le p3x ++ (f64le p3y ++
              (f64le p4x ++ (f64le p4y ++ R))))))))))))))))
        ShapeBaseData.new 4 =
      .ok (⟨⟨bb1, bb2, bb3, bb4⟩, 2, 4, [0, 2], [],
        [⟨p1x, p1y⟩, ⟨p2x, p2y⟩, ⟨p3x, p3y⟩, ⟨p4x, p4y⟩], ⟨0, 0⟩, [], ⟨0, 0⟩, []⟩, 116, R) := by
    intro t' ht' R
    unfold Shape.parseBase
    rw [if_pos (show t' = Shape.STY_POLY_LINE ∨ t' = Shape.STY_POLYGON ∨
        t' = Shape.STY_POLY_LINE_M ∨ t' = Shape.STY_POLYGON_M ∨
        t' = Shape.STY_POLY_LINE_Z ∨ t' = Shape.STY_POLYGON_Z ∨
        t' = Shape.STY_MULTI_PATCH by
      rcases ht' with h' | h'
      · exact Or.inr (Or.inr (Or.inl h'))
      · exact Or.inr (Or.inr (Or.inr (Or.inl h'))))]
    dsimp only
    rw [qbb]
    dsimp only
    rw [readI32LE_quad]
    rw [show i32ofNat (leNat [2, 0, 0, 0]) = (2 : Int) from by decide]
    dsimp only
    rw [readI32LE_quad]
    rw [show i32ofNat (leNat [4, 0, 0, 0]) = (4 : Int) from by decide]
    dsimp only
    rw [qparts]
    dsimp only
    rw [if_neg (show ¬t' = Shape.STY_MULTI_PATCH by
      rcases ht' with h' | h' <;> subst h' <;> decide)]
    dsimp only
    rw [qpts]
    dsimp only
    norm_num [uAdd, uMul, i32AsU64, ShapeBaseData.new]
    decide
  have qzm : ∀ t' : Int, (t' = Shape.STY_POLY_LINE_M ∨ t' = Shape.STY_POLYGON_M) →
      Shape.parseZM t' ⟨⟨bb1, bb2, bb3, bb4⟩, 2, 4, [0, 2], [],
        [⟨p1x, p1y⟩, ⟨p2x, p2y⟩, ⟨p3x, p3y⟩, ⟨p4x, p4y⟩], ⟨0, 0⟩, [], ⟨0, 0⟩, []⟩ 116
        (f64le mr1 ++ (f64le mr2 ++ (f64le m1 ++ (f64le m2 ++ (f64le m3 ++ f64le m4))))) =
      .ok (⟨⟨bb1, bb2, bb3, bb4⟩, 2, 4, [0, 2], [],
        [⟨p1x, p1y⟩, ⟨p2x, p2y⟩, ⟨p3x, p3y⟩, ⟨p4x, p4y⟩], ⟨0, 0⟩, [],
        ⟨mr1, mr2⟩, [m1, m2, m3, m4]⟩, 164, []) := by
    intro t' ht'
    unfold Shape.parseZM
    rw [if_neg (show ¬(t' = Shape.STY_POLY_LINE_Z ∨ t' = Shape.STY_POLYGON_Z ∨
        t' = Shape.STY_MULTI_POINT_Z ∨ t' = Shape.STY_MULTI_PATCH) by
      rcases ht' with h' | h' <;> subst h' <;> decide)]
    rw [if_pos (show t' = Shape.STY_POLY_LINE_M ∨ t' = Shape.STY_POLYGON_M ∨
        t' = Shape.STY_MULTI_POINT_M from by
      rcases ht' with h' | h'
      · exact Or.inl h'
      · exact Or.inr (Or.inl h'))]
    dsimp only
    rw [qrange]
    dsimp only
    norm_num [uAdd, uMul, i32AsU64]
    decide
  constructor
  · unfold c4Payload
    unfold Shape.parse
    rw [readI32LE_quad]
    rw [show i32ofNat (leNat [23, 0, 0, 0]) = (23 : Int) from by decide]
    dsimp only
    rw [if_neg (show ¬((23 : Int) = Shape.STY_POINT ∨ (23 : Int) = Shape.STY_POINT_M ∨
        (23 : Int) = Shape.STY_POINT_Z) by decide)]
    rw [hpb 23 (Or.inl rfl)]
    dsimp only
    rw [qzm 23 (Or.inl rfl)]
    rfl
  · unfold c4Payload
    unfold Shape.parse
    rw [readI32LE_quad]
    rw [show i32ofNat (leNat [25, 0, 0, 0]) = (25 : Int) from by decide]
    dsimp only
    rw [if_neg (show ¬((25 : Int) = Shape.STY_POINT ∨ (25 : Int) = Shape.STY_POINT_M ∨
        (25 : Int) = Shape.STY_POINT_Z) by decide)]
    rw [hpb 25 (Or.inr rfl)]
    dsimp only
    rw [qzm 25 (Or.inr rfl)]
    rfl

/-- C4 witness: the layout theorem instantiated at the concrete scenario —
bounding box (-0.25, -0.125, 0.25, 0.125), points (1,1), (2,2), (5,5), (6,6),
M range [1.0, 50.0] and M values [1.0, 50.0, 49.1, 26.1], all as IEEE-754 bit
patterns. -/
theorem C4_polylinem_polygonm_layout_witness :
    Shape.parse ((23 : Nat) :: 0 :: 0 :: 0 ::
        c4Payload 13821547256400052224 13817043656772681728 4598175219545276416
          4593671619917905920 4607182418800017408 4607182418800017408
          4611686018427387904 4611686018427387904 4617315517961601024
          4617315517961601024 4618441417868443648 4618441417868443648
          4607182418800017408 4632233691727265792 4607182418800017408
          4632233691727265792 4632107027987745997 4628039714574277018) =
      .ok (.PolyLineM ⟨13821547256400052224, 13817043656772681728, 4598175219545276416,
          4593671619917905920⟩ [0, 2]
        [⟨4607182418800017408, 4607182418800017408⟩, ⟨4611686018427387904, 4611686018427387904⟩,
         ⟨4617315517961601024, 4617315517961601024⟩, ⟨4618441417868443648, 4618441417868443648⟩]
        ⟨4607182418800017408, 4632233691727265792⟩
        [4607182418800017408, 4632233691727265792, 4632107027987745997, 4628039714574277018],
        164, []) ∧
    Shape.parse ((25 : Nat) :: 0 :: 0 :: 0 ::
        c4Payload 13821547256400052224 13817043656772681728 4598175219545276416
          4593671619917905920 4607182418800017408 4607182418800017408
          4611686018427387904 4611686018427387904 4617315517961601024
          4617315517961601024 4618441417868443648 4618441417868443648
          4607182418800017408 4632233691727265792 4607182418800017408
          4632233691727265792 4632107027987745997 4628039714574277018) =
      .ok (.PolygonM ⟨13821547256400052224, 13817043656772681728, 4598175219545276416,
          4593671619917905920⟩ [0, 2]
        [⟨4607182418800017408, 4607182418800017408⟩, ⟨4611686018427387904, 4611686018427387904⟩,
         ⟨4617315517961601024, 4617315517961601024⟩, ⟨4618441417868443648, 4618441417868443648⟩]
        ⟨4607182418800017408, 4632233691727265792⟩
        [4607182418800017408, 4632233691727265792, 4632107027987745997, 4628039714574277018],
        164, []) :=
  C4_polylinem_polygonm_layout 13821547256400052224 13817043656772681728
    4598175219545276416 4593671619917905920 4607182418800017408 4607182418800017408
    4611686018427387904 4611686018427387904 4617315517961601024 4617315517961601024
    4618441417868443648 4618441417868443648 4607182418800017408 4632233691727265792
    4607182418800017408 4632233691727265792 4632107027987745997 4628039714574277018
    (by decide) (by decide) (by decide) (by decide) (by decide) (by decide)
    (by decide) (by decide) (by decide) (by decide) (by decide) (by decide)
    (by decide) (by decide) (by decide) (by decide) (by decide) (by decide)

/-- C5: `ShxFile::record` on a table of `num_records` entries reads, for an
in-range 1-based ordinal, one 8-byte big-endian entry at byte offset
`100 + (id - 1) * 8` of the index file; every ordinal outside
`[1, num_records]` — in particular 0 and `num_records + 1` — yields `none`
(the function returns an `Option`, so no error can ever surface). -/
theorem C5_shx_record_lookup (shx : ShxFile) (id : Nat) :
    ShxFile.record shx 0 = none ∧
    ShxFile.record shx (shx.num_records + 1) = none ∧
    (id < 1 ∨ id > shx.num_records → ShxFile.record shx id = none) ∧
    (1 ≤ id → id ≤ shx.num_records → 100 + (id - 1) * 8 < 18446744073709551616 →
      ∀ b0 b1 b2 b3 b4 b5 b6 b7 rest,
        shx.data.drop (100 + (id - 1) * 8) =
          b0 :: b1 :: b2 :: b3 :: b4 :: b5 :: b6 :: b7 :: rest →
        ShxFile.record shx id =
          some ⟨i32ofNat (leNat [b3, b2, b1, b0]), i32ofNat (leNat [b7, b6, b5, b4])⟩) := by
  refine ⟨?_, ?_, ?_, ?_⟩
  · simp [ShxFile.record]
  · unfold ShxFile.record
    rw [if_pos (Or.inl (Nat.lt_succ_self _))]
  · intro h
    unfold ShxFile.record
    rw [if_pos (by omega)]
  · intro hge hle hlt b0 b1 b2 b3 b4 b5 b6 b7 rest hdrop
    unfold ShxFile.record
    rw [if_neg (by omega)]
    have hpos : uAdd 100 (uMul (id - 1) 8) = 100 + (id - 1) * 8 := by
      unfold uAdd uMul
      omega
    dsimp only
    rw [hpos, hdrop]
    rfl

/-- C5 witness: the lookup theorem applied to the concrete one-entry index
file `c5Shx` (54 declared words, so one record): ordinals 0 and 2 are
not-found, and ordinal 1 reads the entry (offset 50 words, length 2 words) at
byte offset 100. -/
theorem C5_shx_record_lookup_witness :
    ShxFile.record c5Shx 0 = none ∧ ShxFile.record c5Shx 2 = none ∧
      ShxFile.record c5Shx 1 = some ⟨50, 2⟩ := by
  have h := C5_shx_record_lookup c5Shx 1
  exact ⟨h.1, h.2.1, h.2.2.2 (by decide) (by decide) (by decide)
    0 0 0 50 0 0 0 2 [] (by decide)⟩

/-- C6: `ShpFile::record` (random access) returns `some r` exactly when the
index lookup returns an entry and the record decode at byte offset
`entry.offset as u64 * 2` succeeds with `r`; because its result type is
`Option`, every failure — out-of-range ordinal or any decode failure — is
`none` and no error is surfaced. -/
theorem C6_record_some_iff (shp : ShpFileRA) (shx : ShxFile) (id : Nat) (r : ShpRecord) :
    ShpFileRA.record shp shx id = some r ↔
      ∃ e n s', ShxFile.record shx id = some e ∧
        ShpRecord.parse (shp.data.drop (uMul (i32AsU64 e.offset) 2)) = .ok (r, n, s') := by
  unfold ShpFileRA.record
  cases hE : ShxFile.record shx id with
  | none => simp
  | some e0 =>
    dsimp only
    cases hP : ShpRecord.parse (shp.data.drop (uMul (i32AsU64 e0.offset) 2)) with
    | error err =>
      constructor
      · intro h
        exact absurd h (by simp)
      · rintro ⟨e', n', s', he', hp'⟩
        obtain rfl : e0 = e' := by simpa using he'
        rw [hP] at hp'
        exact absurd hp' (by simp)
    | ok q =>
      obtain ⟨v, n0, s0⟩ := q
      constructor
      · intro h
        obtain rfl : v = r := by simpa using h
        exact ⟨e0, n0, s0, rfl, hP⟩
      · rintro ⟨e', n', s', he', hp'⟩
        obtain rfl : e0 = e' := by simpa using he'
        rw [hP] at hp'
        simp only [Except.ok.injEq, Prod.mk.injEq] at hp'
        simp [hp'.1]

/-- C7 counterexample: the index file `c7Shx` declares 51 words = 102 bytes,
so the 2 bytes after the header are not an exact multiple of the 8-byte
entry stride; the claim requires a reported malformed-index error, but
`ShxFile::num_records` has no error channel at all and silently returns the
truncated count 0. -/
theorem C7_inexact_index_size_counterexample :
    ShxFile.num_records c7Shx = 0 ∧ (51 * 2 - 100) % 8 = 2 := by decide

/-- C7 (amended): the record count is `(file_length × 2 − 100) / 8` computed
with truncating (floor) division — the division characterization below — and
a non-exact division is silently rounded down, never reported as an error. -/
theorem C7_num_records_floor_amended (shx : ShxFile)
    (h : 100 ≤ uMul (i32AsU64 shx.header.file_length) 2) :
    8 * ShxFile.num_records shx ≤ uMul (i32AsU64 shx.header.file_length) 2 - 100 ∧
      uMul (i32AsU64 shx.header.file_length) 2 - 100 < 8 * (ShxFile.num_records shx + 1) := by
  have hlt : uMul (i32AsU64 shx.header.file_length) 2 < 18446744073709551616 := by
    unfold uMul
    exact Nat.mod_lt _ (by norm_num)
  unfold ShxFile.num_records
  dsimp only
  unfold uSub
  rw [show (uMul (i32AsU64 shx.header.file_length) 2 + 18446744073709551616 - 100) %
      18446744073709551616 = uMul (i32AsU64 shx.header.file_length) 2 - 100 by omega]
  omega

/-- C7 witness: the floor characterization applied to `c7Shx` (102 declared
bytes): the count 0 satisfies `8 * 0 ≤ 2 < 8 * 1`. -/
theorem C7_num_records_floor_amended_witness :
    8 * ShxFile.num_records c7Shx ≤ uMul (i32AsU64 c7Shx.header.file_length) 2 - 100 ∧
      uMul (i32AsU64 c7Shx.header.file_length) 2 - 100 <
        8 * (ShxFile.num_records c7Shx + 1) :=
  C7_num_records_floor_amended c7Shx (by decide)

/-- C10: `ShxFile::num_records` validates nothing: for every header whose
declared `file_length` is below 50 words — including 0 and every negative
`i32`, which sign-extends to a huge `u64` — the wrapping `u64` computation
`(file_length as u64 * 2 - 100) / 8` yields an enormous record count
(greater than 2^60), never 0 and never an error. -/
theorem C10_num_records_underflow (fl st : Int) (bb : BoundingBoxZ) (data : List Nat)
    (hlo : -2147483648 ≤ fl) (hhi : fl < 50) :
    1152921504606846976 < ShxFile.num_records ⟨⟨fl, st, bb⟩, data⟩ ∧
      ShxFile.num_records ⟨⟨fl, st, bb⟩, data⟩ ≠ 0 := by
  unfold ShxFile.num_records uMul uSub i32AsU64
  dsimp only
  omega

/-- C10 witness: a header declaring file length 0 yields the count
`(2^64 - 100) / 8 = 2305843009213693939`, which is enormous and nonzero. -/
theorem C10_num_records_underflow_witness :
    1152921504606846976 < ShxFile.num_records ⟨⟨0, 0, ⟨0, 0, 0, 0, 0, 0, 0, 0⟩⟩, []⟩ ∧
      ShxFile.num_records ⟨⟨0, 0, ⟨0, 0, 0, 0, 0, 0, 0, 0⟩⟩, []⟩ ≠ 0 :=
  C10_num_records_underflow 0 0 ⟨0, 0, 0, 0, 0, 0, 0, 0⟩ [] (by decide) (by decide)

/-- C2: if the sequential decode (`ShpFile::parse_stream`) of a main file
succeeds with record list `rs`, and the index file resolves ordinal `k` (with
`1 ≤ k ≤ rs.length`) to an entry whose byte offset `offset as u64 * 2` is
exactly the position at which the `k`-th record begins in the sequential
decode (the matching-index hypothesis `hmatch`), then random access
(`ShpFile::record` of src/filetypes/shpfile.rs) at ordinal `k` returns
exactly the `k`-th sequentially decoded record. -/
theorem C2_random_access_matches_sequential
    (file : Stream8) (shx : ShxFile) (hdr : FileHeader) (s1 : Stream8)
    (rs : List ShpRecord) (k : Nat) (e : ShxRecord)
    (hhdr : FileHeader.parse file = .ok (hdr, s1))
    (hseq : ShpFile.parse_stream file = .ok ⟨hdr, rs⟩)
    (hk1 : 1 ≤ k) (hk2 : k ≤ rs.length)
    (hlook : ShxFile.record shx k = some e)
    (hmatch : recStream s1 (k - 1) = some (file.drop (uMul (i32AsU64 e.offset) 2))) :
    ShpFileRA.record ⟨hdr, file⟩ shx k = some (rs.get ⟨k - 1, by omega⟩) := by
  unfold ShpFile.parse_stream at hseq
  rw [hhdr] at hseq
  dsimp only at hseq
  cases hL : parseRecordsLoop (s1.length + 1) (uMul (i32AsU64 hdr.file_length) 2) 100 s1 with
  | error err => rw [hL] at hseq; exact absurd hseq (by simp)
  | ok rs0 =>
    rw [hL] at hseq
    simp only [Except.ok.injEq, ShpFile.mk.injEq] at hseq
    obtain ⟨-, hrs⟩ := hseq
    subst hrs
    obtain ⟨sk, r, n, sk', hrec, hget, hpk⟩ := parseRecordsLoop_get (k - 1) hL (by omega)
    have hsk : sk = file.drop (uMul (i32AsU64 e.offset) 2) := by
      rw [hrec] at hmatch
      exact Option.some.inj hmatch
    unfold ShpFileRA.record
    rw [hlook]
    dsimp only
    rw [← hsk, hpk]
    dsimp only
    have hr : rs0.get ⟨k - 1, by omega⟩ = r := by
      have hg := List.getElem?_eq_getElem (l := rs0) (n := k - 1) (by omega)
      exact Option.some.inj (hg.symm.trans hget)
    rw [hr]

/-- C2 witness: the concrete 112-byte main file `c2File` (one NullShape
record) sequentially decodes to `[c2Rec]`, its index file `c2Shx` resolves
ordinal 1 to word offset 50 = byte 100, and random access at ordinal 1
returns exactly that record. -/
theorem C2_random_access_matches_sequential_witness :
    ShpFileRA.record ⟨c2Hdr, c2File⟩ c2Shx 1 = some c2Rec := by
  have h := C2_random_access_matches_sequential c2File c2Shx c2Hdr (List.drop 100 c2File)
    [c2Rec] 1 ⟨50, 2⟩ (by rfl) (by rfl) (by decide) (by decide) (by rfl) (by rfl)
  simpa using h
